import Mathlib

/-!
Verification development for the `IntelligentCPaaS` repository.

Each component that the claims touch is shallowly embedded below, translated
from its Python source file.  Machine floats in the source are modelled as
exact rationals (`ℚ`); wall-clock timestamps (`time.time()`,
`datetime.utcnow()`) become explicit `ℚ` parameters threaded through the
functions that read them; Python dictionaries become Lean functions with the
source's default-value semantics, or `Option`-valued lookups where the source
distinguishes key presence.
-/

namespace AICPaaS

/-! ## Rate limiter — `src/ai_cpaas_demo/messaging/rate_limiter.py`

`RateLimiter` is a token bucket: `tokens` starts at the burst capacity, and
each `acquire` first refills by `elapsed * refill_rate` (capped at
`max_tokens`), then either subtracts the requested amount (success) or
reports `retry_after = (requested - tokens) / refill_rate` (failure).
Timestamps are seconds as `ℚ`.  -/

structure RateLimitConfig where
  maxRequestsPerSecond : ℚ
  burstCapacity : ℚ
deriving Repr, DecidableEq

/-- Mutable state of `RateLimiter`: `self.tokens` and `self.last_refill`.
`max_tokens` and `refill_rate` live in the config. -/
structure RLState where
  tokens : ℚ
  lastRefill : ℚ
deriving Repr, DecidableEq

/-- `RateLimiter.__init__`: tokens start at the burst capacity. -/
def RLState.init (config : RateLimitConfig) (now : ℚ) : RLState :=
  { tokens := config.burstCapacity, lastRefill := now }

/-- Outcome of one `acquire` call: `(success, retry_after_seconds)`. -/
structure AcquireResult where
  success : Bool
  retryAfter : Option ℚ
deriving Repr, DecidableEq

/-- The refill step shared by `acquire` and `get_available_tokens`:
`min(max_tokens, tokens + elapsed * refill_rate)`. -/
def refillTokens (cfg : RateLimitConfig) (s : RLState) (now : ℚ) : ℚ :=
  min cfg.burstCapacity (s.tokens + (now - s.lastRefill) * cfg.maxRequestsPerSecond)

/-- `RateLimiter.acquire(tokens)` at wall-clock time `now`:
refill, set `last_refill = now`, then take `n` tokens if available, else
report `retry_after = (n - tokens) / refill_rate`. -/
def acquire (cfg : RateLimitConfig) (s : RLState) (now : ℚ) (n : ℚ) :
    AcquireResult × RLState :=
  if n ≤ refillTokens cfg s now then
    ({ success := true, retryAfter := none },
     { tokens := refillTokens cfg s now - n, lastRefill := now })
  else
    ({ success := false,
       retryAfter := some ((n - refillTokens cfg s now) / cfg.maxRequestsPerSecond) },
     { tokens := refillTokens cfg s now, lastRefill := now })

/-- `RateLimiter.get_available_tokens()`: refill computation without storing
the result (the source does not assign `self.tokens` or `self.last_refill`
here), truncated to an integer by Python `int(...)` (floor on the
nonnegative values the bucket holds). -/
def getAvailableTokens (cfg : RateLimitConfig) (s : RLState) (now : ℚ) : ℤ :=
  Int.floor (refillTokens cfg s now)

/-- `k` consecutive `acquire(1)` calls at the same wall-clock time `now`;
returns whether every call succeeded, and the final state. -/
def acquireRepeat (cfg : RateLimitConfig) (now : ℚ) : ℕ → RLState → Bool × RLState
  | 0, s => (true, s)
  | k + 1, s =>
    ((acquire cfg s now 1).1.success && (acquireRepeat cfg now k (acquire cfg s now 1).2).1,
     (acquireRepeat cfg now k (acquire cfg s now 1).2).2)

/-- One externally visible call on the limiter: an `acquire` (which mutates
the bucket) or a `get_available_tokens` query (which does not — the source
method only reads state). -/
inductive RLOp where
  | acq (now n : ℚ)
  | query (now : ℚ)
deriving Repr, DecidableEq

/-- Run a sequence of limiter calls, tracking only the state; `query` leaves
the state unchanged exactly as `get_available_tokens` does. -/
def runOps (cfg : RateLimitConfig) : List RLOp → RLState → RLState
  | [], s => s
  | RLOp.acq now n :: rest, s => runOps cfg rest (acquire cfg s now n).2
  | RLOp.query _ :: rest, s => runOps cfg rest s

/-- The wall-clock time at which an operation is issued. -/
def RLOp.time : RLOp → ℚ
  | RLOp.acq now _ => now
  | RLOp.query now => now

/-- Requested token count of an operation (queries request nothing). -/
def RLOp.requested : RLOp → ℚ
  | RLOp.acq _ n => n
  | RLOp.query _ => 0

/-- A call trace is admissible from a state when wall-clock time never runs
backwards (each call is no earlier than the stored `last_refill` at that
point, which successive `acquire`s update to their own call time) and every
requested token count is nonnegative. -/
def ChronFrom (t0 : ℚ) : List RLOp → Prop
  | [] => True
  | op :: rest => t0 ≤ op.time ∧ 0 ≤ op.requested ∧
      ChronFrom (match op with | RLOp.acq now _ => now | RLOp.query _ => t0) rest

instance : ∀ (t0 : ℚ) (ops : List RLOp), Decidable (ChronFrom t0 ops)
  | _, [] => isTrue trivial
  | t0, op :: rest =>
    have : Decidable (ChronFrom (match op with | RLOp.acq now _ => now | RLOp.query _ => t0) rest) :=
      instDecidableChronFrom _ rest
    instDecidableAnd

/-- Token-bucket invariant: the stored token count stays within
`[0, burst_capacity]`. -/
def RLInv (cfg : RateLimitConfig) (s : RLState) : Prop :=
  0 ≤ s.tokens ∧ s.tokens ≤ cfg.burstCapacity

instance (cfg : RateLimitConfig) (s : RLState) : Decidable (RLInv cfg s) :=
  instDecidableAnd

section RateLimiterLemmas

variable {cfg : RateLimitConfig}

lemma refill_le_cap (s : RLState) (now : ℚ) :
    refillTokens cfg s now ≤ cfg.burstCapacity :=
  min_le_left _ _

lemma refill_nonneg {s : RLState} (hrate : 0 ≤ cfg.maxRequestsPerSecond)
    (hcap : 0 ≤ cfg.burstCapacity) (htok : 0 ≤ s.tokens) {now : ℚ}
    (hnow : s.lastRefill ≤ now) :
    0 ≤ refillTokens cfg s now := by
  refine le_min hcap ?_
  have : 0 ≤ (now - s.lastRefill) * cfg.maxRequestsPerSecond :=
    mul_nonneg (by linarith) hrate
  linarith

lemma refill_no_elapsed {s : RLState} (hcap : s.tokens ≤ cfg.burstCapacity) :
    refillTokens cfg s s.lastRefill = s.tokens := by
  unfold refillTokens
  rw [sub_self, zero_mul, add_zero, min_eq_right hcap]

/-- Single-step preservation of the token-bucket invariant by `acquire`. -/
lemma acquire_preserves_inv {s : RLState} (hrate : 0 ≤ cfg.maxRequestsPerSecond)
    (hinv : RLInv cfg s) {now n : ℚ} (hnow : s.lastRefill ≤ now) (hn : 0 ≤ n) :
    RLInv cfg (acquire cfg s now n).2 := by
  obtain ⟨htok, hcap⟩ := hinv
  have hcap0 : 0 ≤ cfg.burstCapacity := le_trans htok hcap
  have h0 := refill_nonneg hrate hcap0 htok hnow
  have h1 := @refill_le_cap cfg s now
  unfold acquire
  split
  · next hle => refine ⟨?_, ?_⟩ <;> dsimp only <;> linarith
  · exact ⟨h0, h1⟩

/-- `acquire` stamps the call time into `last_refill`. -/
lemma acquire_lastRefill (s : RLState) (now n : ℚ) :
    (acquire cfg s now n).2.lastRefill = now := by
  unfold acquire
  split <;> rfl

/-- If the call time equals the stored `last_refill` and the bucket is within
capacity, a successful `acquire n` just subtracts `n` (no elapsed time means
no refill). -/
lemma acquire_no_elapsed {s : RLState} (hcap : s.tokens ≤ cfg.burstCapacity)
    {n : ℚ} (hn : n ≤ s.tokens) :
    acquire cfg s s.lastRefill n =
      ({ success := true, retryAfter := none },
       { tokens := s.tokens - n, lastRefill := s.lastRefill }) := by
  unfold acquire
  rw [refill_no_elapsed hcap, if_pos hn]

/-- Iterating `k ≤ tokens` immediate `acquire(1)` calls all succeed and leave
`tokens - k` in the bucket. -/
lemma acquireRepeat_no_elapsed {s : RLState} (hcap : s.tokens ≤ cfg.burstCapacity) :
    ∀ k : ℕ, (k : ℚ) ≤ s.tokens →
      acquireRepeat cfg s.lastRefill k s =
        (true, { tokens := s.tokens - k, lastRefill := s.lastRefill }) := by
  intro k
  induction k generalizing s with
  | zero =>
    intro _
    simp [acquireRepeat]
  | succ k ih =>
    intro hk
    have hk0 : (0 : ℚ) ≤ (k : ℚ) := by positivity
    have h1 : (1 : ℚ) ≤ s.tokens := by push_cast at hk; linarith
    have hstep := acquire_no_elapsed hcap h1
    have hcap' : s.tokens - 1 ≤ cfg.burstCapacity := by linarith
    have hk' : (k : ℚ) ≤ s.tokens - 1 := by push_cast at hk; linarith
    have hrec := ih (s := { tokens := s.tokens - 1, lastRefill := s.lastRefill }) hcap' hk'
    unfold acquireRepeat
    rw [hstep]
    dsimp only at hrec ⊢
    rw [hrec]
    dsimp only
    refine congrArg₂ Prod.mk rfl ?_
    have : s.tokens - 1 - (k : ℚ) = s.tokens - ((k : ℕ) + 1 : ℚ) := by ring
    rw [this]
    norm_cast

end RateLimiterLemmas

/-! ### Claim theorems for the rate limiter -/

/-- **C1.** For an in-memory limiter with burst capacity `B ≥ 1` and rate
`R > 0` requests per second, `B` consecutive `acquire(1)` calls with no
elapsed time all succeed; the `(B+1)`-th `acquire(1)` fails and reports
`retry_after = (1 - tokens_remaining) / R = 1/R` seconds; and one more
`acquire(1)` issued at least `1/R` seconds later succeeds. -/
theorem rateLimiter_burst_exhaust_retry (B : ℕ) (R t0 : ℚ)
    (hB : 1 ≤ B) (hR : 0 < R) :
    let cfg : RateLimitConfig := { maxRequestsPerSecond := R, burstCapacity := (B : ℚ) }
    let s0 := RLState.init cfg t0
    -- B consecutive acquire(1) calls with no elapsed time all succeed,
    acquireRepeat cfg t0 B s0 = (true, { tokens := 0, lastRefill := t0 }) ∧
    -- the (B+1)-th fails and reports retry_after = (1 - 0)/R = 1/R,
    (acquire cfg (acquireRepeat cfg t0 B s0).2 t0 1).1 =
      { success := false, retryAfter := some (1 / R) } ∧
    -- and after at least 1/R seconds the next acquire(1) succeeds.
    ∀ d : ℚ, 1 / R ≤ d →
      ((acquire cfg (acquire cfg (acquireRepeat cfg t0 B s0).2 t0 1).2 (t0 + d) 1).1.success
        = true) := by
  intro cfg s0
  have hcapB : ((B : ℚ)) ≤ cfg.burstCapacity := le_refl _
  have hrun : acquireRepeat cfg t0 B s0 = (true, { tokens := 0, lastRefill := t0 }) := by
    have := @acquireRepeat_no_elapsed cfg s0 (by exact le_refl _) B (by exact le_refl _)
    simpa [s0, RLState.init] using this
  have hcap0 : (0 : ℚ) ≤ cfg.burstCapacity := by
    show (0 : ℚ) ≤ (B : ℚ)
    positivity
  have hmin0 : refillTokens cfg { tokens := 0, lastRefill := t0 } t0 = 0 := by
    unfold refillTokens
    simp [min_eq_right hcap0]
  have hfail : acquire cfg { tokens := 0, lastRefill := t0 } t0 1 =
      ({ success := false, retryAfter := some (1 / R) },
       { tokens := 0, lastRefill := t0 }) := by
    unfold acquire
    rw [hmin0, if_neg (by norm_num)]
    norm_num
  refine ⟨hrun, ?_, ?_⟩
  · rw [hrun]
    dsimp only
    rw [hfail]
  · intro d hd
    rw [hrun]
    dsimp only
    rw [hfail]
    dsimp only
    have h1d : (1 : ℚ) ≤ d * R := by
      have := (div_le_iff₀ hR).mp hd
      linarith
    have hB1 : (1 : ℚ) ≤ (B : ℚ) := by exact_mod_cast hB
    have hmin1 : (1 : ℚ) ≤ refillTokens cfg { tokens := 0, lastRefill := t0 } (t0 + d) := by
      refine le_min hB1 ?_
      dsimp only
      have habs : t0 + d - t0 = d := by ring
      rw [habs, zero_add]
      linarith
    unfold acquire
    rw [if_pos hmin1]

/-- **C1 witness**: burst 3, rate 2 req/s, starting at time 0; the three
immediate acquires succeed, the fourth fails with `retry_after = 1/2`, and
an acquire half a second later succeeds. -/
theorem rateLimiter_burst_exhaust_retry_witness :
    (1 ≤ 3 ∧ (0 : ℚ) < 2) ∧
    (let cfg : RateLimitConfig := { maxRequestsPerSecond := 2, burstCapacity := (3 : ℚ) }
     let s0 := RLState.init cfg 0
     acquireRepeat cfg 0 3 s0 = (true, { tokens := 0, lastRefill := 0 }) ∧
     (acquire cfg (acquireRepeat cfg 0 3 s0).2 0 1).1 =
       { success := false, retryAfter := some (1 / 2) } ∧
     ∀ d : ℚ, 1 / 2 ≤ d →
       ((acquire cfg (acquire cfg (acquireRepeat cfg 0 3 s0).2 0 1).2 (0 + d) 1).1.success
         = true)) :=
  ⟨⟨by norm_num, by norm_num⟩, by
    have h := rateLimiter_burst_exhaust_retry 3 2 0 (by norm_num) (by norm_num)
    simpa using h⟩

/-- **C10.** The in-memory rate limiter maintains `0 ≤ tokens ≤ burst
capacity` across every admissible sequence of `acquire` and
`get_available_tokens` calls (nonnegative rate and capacity, wall-clock time
never running backwards, nonnegative token requests); queries leave the
state untouched by definition of `runOps`, mirroring the read-only source
method. -/
theorem rateLimiter_token_invariant (cfg : RateLimitConfig) (s : RLState)
    (ops : List RLOp) (hrate : 0 ≤ cfg.maxRequestsPerSecond)
    (hinv : RLInv cfg s) (hchron : ChronFrom s.lastRefill ops) :
    RLInv cfg (runOps cfg ops s) := by
  induction ops generalizing s with
  | nil => exact hinv
  | cons op rest ih =>
    obtain ⟨htime, hreq, hrest⟩ := hchron
    cases op with
    | acq now n =>
      have hstep := acquire_preserves_inv hrate hinv htime hreq
      have hlast := @acquire_lastRefill cfg s now n
      exact ih _ hstep (by rwa [hlast])
    | query now => exact ih _ hinv hrest

/-- **C10 witness**: SMS default config (20 req/s, burst 100) with a concrete
trace — two immediate acquires, an over-large request that fails, a query,
and a later batch acquire — keeps the bucket inside `[0, 100]`. -/
theorem rateLimiter_token_invariant_witness :
    (0 ≤ (20 : ℚ) ∧
      RLInv { maxRequestsPerSecond := 20, burstCapacity := 100 } (RLState.init ⟨20, 100⟩ 0) ∧
      ChronFrom 0 [RLOp.acq 0 1, RLOp.acq 0 1, RLOp.acq 0 200, RLOp.query 5, RLOp.acq 10 50]) ∧
    RLInv { maxRequestsPerSecond := 20, burstCapacity := 100 }
      (runOps { maxRequestsPerSecond := 20, burstCapacity := 100 }
        [RLOp.acq 0 1, RLOp.acq 0 1, RLOp.acq 0 200, RLOp.query 5, RLOp.acq 10 50]
        (RLState.init ⟨20, 100⟩ 0)) :=
  ⟨⟨by norm_num, by decide, by decide⟩,
   rateLimiter_token_invariant _ _ _ (by norm_num) (by decide) (by decide)⟩

/-! ## Fatigue protection — `src/ai_cpaas_demo/engines/fatigue/base.py`

`BaseFatigueProtection` keeps two in-memory dictionaries (frequency tracking
and disengagement signals, both keyed by customer id, here `ℕ` for the
UUID).  Wall-clock timestamps are `ℚ` measured in days since the epoch, so
Python's `timedelta.days` becomes `Int.floor` of the difference, and delays
are integer minutes. -/

inductive ChannelType where
  | sms | whatsapp | email | voice
deriving Repr, DecidableEq

inductive FatigueLevel where
  | low | medium | high
deriving Repr, DecidableEq

/-- `FatigueLevel.value` — the string payload of the Python enum. -/
def FatigueLevel.value : FatigueLevel → String
  | .low => "low"
  | .medium => "medium"
  | .high => "high"

structure DisengagementSignal where
  signalType : String
  timestamp : ℚ
  channel : ChannelType
  severity : ℚ
deriving Repr, DecidableEq

/-- `CommunicationFrequency` (core/models.py): per-customer counters. The
channel-breakdown dictionary is a total function defaulting to 0. -/
structure CommunicationFrequency where
  customerId : ℕ
  dailyCount : ℕ
  weeklyCount : ℕ
  monthlyCount : ℕ
  lastMessageTime : Option ℚ
  channelBreakdown : ChannelType → ℕ
  fatigueScore : ℚ
  lastUpdated : ℚ

/-- Default-constructed `CommunicationFrequency(customer_id=cid)` at wall
clock `now` (the pydantic default for `last_updated`). -/
def CommunicationFrequency.fresh (cid : ℕ) (now : ℚ) : CommunicationFrequency :=
  { customerId := cid, dailyCount := 0, weeklyCount := 0, monthlyCount := 0,
    lastMessageTime := none, channelBreakdown := fun _ => 0,
    fatigueScore := 0, lastUpdated := now }

/-- The engine's two mutable dictionaries. -/
structure FatigueState where
  frequencyTracking : ℕ → Option CommunicationFrequency
  disengagementSignals : ℕ → Option (List DisengagementSignal)

def FatigueState.empty : FatigueState :=
  { frequencyTracking := fun _ => none, disengagementSignals := fun _ => none }

/-- Fatigue thresholds from `BaseFatigueProtection.__init__`. -/
def dailyThreshold : ℕ := 3
def weeklyThreshold : ℕ := 10
def monthlyThreshold : ℕ := 30
def disengagementWindowDays : ℚ := 7

/-- `_calculate_fatigue_level`: highest fraction of the three limits. -/
def calculateFatigueLevel (f : CommunicationFrequency) : FatigueLevel :=
  let dailyPct : ℚ := (f.dailyCount : ℚ) / (dailyThreshold : ℚ)
  let weeklyPct : ℚ := (f.weeklyCount : ℚ) / (weeklyThreshold : ℚ)
  let monthlyPct : ℚ := (f.monthlyCount : ℚ) / (monthlyThreshold : ℚ)
  let maxPct := max (max dailyPct weeklyPct) monthlyPct
  if 9 / 10 ≤ maxPct then FatigueLevel.high
  else if 6 / 10 ≤ maxPct then FatigueLevel.medium
  else FatigueLevel.low

/-- `_calculate_fatigue_score`: weighted average 0.5/0.3/0.2 of the capped
limit fractions. -/
def calculateFatigueScore (f : CommunicationFrequency) : ℚ :=
  min 1 ((f.dailyCount : ℚ) / (dailyThreshold : ℚ)) * (5 / 10) +
  min 1 ((f.weeklyCount : ℚ) / (weeklyThreshold : ℚ)) * (3 / 10) +
  min 1 ((f.monthlyCount : ℚ) / (monthlyThreshold : ℚ)) * (2 / 10)

/-- `_calculate_delay_until_next_day`: whole minutes until the next UTC
midnight (`now` in days, next midnight at `⌊now⌋ + 1`). -/
def delayUntilNextDay (now : ℚ) : ℤ :=
  Int.floor (((Int.floor now : ℚ) + 1 - now) * 1440)

/-- `_calculate_delay_until_next_week`: whole minutes until the next Monday
midnight.  Day 0 of the epoch scale was a Thursday, and `weekday()` counts
Monday as 0, so today's weekday index is `(⌊now⌋ + 3) % 7`. -/
def delayUntilNextWeek (now : ℚ) : ℤ :=
  let weekday : ℤ := (Int.floor now + 3) % 7
  let daysRaw : ℤ := (7 - weekday) % 7
  let daysUntilMonday : ℤ := if daysRaw = 0 then 7 else daysRaw
  Int.floor ((((Int.floor now + daysUntilMonday : ℤ) : ℚ) - now) * 1440)

/-- `detect_disengagement_signals`: stored signals inside the 7-day window,
plus a synthetic `low_engagement` signal when the tracked weekly count
exceeds 5 and the fatigue score exceeds 0.7.  The synthetic signal is built
into the returned list only; nothing is written back to the state. -/
def detectDisengagementSignals (st : FatigueState) (cid : ℕ) (now : ℚ) :
    List DisengagementSignal :=
  let stored :=
    match st.disengagementSignals cid with
    | some sigs => sigs.filter (fun s => now - disengagementWindowDays ≤ s.timestamp)
    | none => []
  match st.frequencyTracking cid with
  | some f =>
      if 5 < f.weeklyCount ∧ 7 / 10 < f.fatigueScore then
        stored ++ [{ signalType := "low_engagement", timestamp := now,
                     channel := ChannelType.sms, severity := f.fatigueScore }]
      else stored
  | none => stored

structure FatigueProtectionResult where
  allowMessage : Bool
  fatigueLevel : String
  recommendedDelay : ℤ
  protectionReason : List String
  alternativeActions : List String
deriving Repr, DecidableEq

/-- Accumulator for the sequential decision logic of `check_fatigue`. -/
structure FatigueCheckAcc where
  allowMessage : Bool
  protectionReasons : List String
  alternativeActions : List String
  recommendedDelay : ℤ

/-- `check_fatigue(request)` at wall clock `now`: looks up the frequency
record with a non-inserting default, walks the threshold checks in source
order, and returns the decision together with the (unchanged) engine
state. -/
def checkFatigue (st : FatigueState) (cid : ℕ) (now : ℚ) :
    FatigueProtectionResult × FatigueState :=
  let frequency := (st.frequencyTracking cid).getD (CommunicationFrequency.fresh cid now)
  let fatigueLevel := calculateFatigueLevel frequency
  let signals := detectDisengagementSignals st cid now
  let a0 : FatigueCheckAcc :=
    { allowMessage := true, protectionReasons := [], alternativeActions := [],
      recommendedDelay := 0 }
  let a1 :=
    if dailyThreshold ≤ frequency.dailyCount then
      { allowMessage := false,
        protectionReasons := a0.protectionReasons ++
          ["Daily limit reached (" ++ toString frequency.dailyCount ++ "/" ++
            toString dailyThreshold ++ ")"],
        alternativeActions := a0.alternativeActions ++ ["Wait until tomorrow to send message"],
        recommendedDelay := delayUntilNextDay now }
    else a0
  let a2 :=
    if weeklyThreshold ≤ frequency.weeklyCount then
      { allowMessage := false,
        protectionReasons := a1.protectionReasons ++
          ["Weekly limit reached (" ++ toString frequency.weeklyCount ++ "/" ++
            toString weeklyThreshold ++ ")"],
        alternativeActions := a1.alternativeActions ++
          ["Reduce communication frequency this week"],
        recommendedDelay :=
          if a1.recommendedDelay = 0 then delayUntilNextWeek now else a1.recommendedDelay }
    else a1
  let a3 :=
    if fatigueLevel = FatigueLevel.high then
      { allowMessage := false,
        protectionReasons := a2.protectionReasons ++ ["Customer showing high fatigue signals"],
        alternativeActions := a2.alternativeActions ++
          ["Pause non-critical communications for 48 hours"],
        recommendedDelay := max a2.recommendedDelay 1440 }
    else a2
  let a4 :=
    if signals.isEmpty then a3
    else if signals.any (fun s => decide (7 / 10 < s.severity)) then
      { allowMessage := false,
        protectionReasons := a3.protectionReasons ++
          ["Strong disengagement signals detected: " ++
            String.intercalate ", " (signals.map (·.signalType))],
        alternativeActions := a3.alternativeActions ++
          ["Review customer preferences and reduce frequency"],
        recommendedDelay := max a3.recommendedDelay 2880 }
    else a3
  let a5 :=
    if fatigueLevel = FatigueLevel.medium ∧ a4.allowMessage then
      { allowMessage := a4.allowMessage,
        protectionReasons := a4.protectionReasons ++ ["Customer approaching fatigue threshold"],
        alternativeActions := a4.alternativeActions ++ ["Consider spacing out future messages"],
        recommendedDelay := 240 }
    else a4
  ({ allowMessage := a5.allowMessage,
     fatigueLevel := fatigueLevel.value,
     recommendedDelay := a5.recommendedDelay,
     protectionReason := a5.protectionReasons,
     alternativeActions := a5.alternativeActions }, st)

/-- `track_communication_frequency(customer_id, channel)` at wall clock
`now`: reset stale counters by elapsed whole days, increment all three
counters and the per-channel breakdown, recompute the fatigue score, and
store the record back. -/
def trackCommunicationFrequency (st : FatigueState) (cid : ℕ) (channel : ChannelType)
    (now : ℚ) : FatigueState :=
  let frequency := (st.frequencyTracking cid).getD (CommunicationFrequency.fresh cid now)
  let f1 :=
    match frequency.lastMessageTime with
    | none => frequency
    | some last =>
        let elapsedDays : ℤ := Int.floor (now - last)
        let fa := if 1 ≤ elapsedDays then { frequency with dailyCount := 0 } else frequency
        let fb := if 7 ≤ elapsedDays then { fa with weeklyCount := 0 } else fa
        if 30 ≤ elapsedDays then { fb with monthlyCount := 0 } else fb
  let f2 :=
    { f1 with dailyCount := f1.dailyCount + 1, weeklyCount := f1.weeklyCount + 1,
              monthlyCount := f1.monthlyCount + 1, lastMessageTime := some now,
              lastUpdated := now }
  let f3 :=
    { f2 with channelBreakdown :=
        fun c => if c = channel then f2.channelBreakdown c + 1 else f2.channelBreakdown c }
  let f4 := { f3 with fatigueScore := calculateFatigueScore f3 }
  { st with frequencyTracking := fun c => if c = cid then some f4 else st.frequencyTracking c }

/-- `record_disengagement_signal(customer_id, signal)`: append to the
customer's stored signal list, creating it when absent. -/
def recordDisengagementSignal (st : FatigueState) (cid : ℕ)
    (signal : DisengagementSignal) : FatigueState :=
  { st with disengagementSignals :=
      fun c => if c = cid then some ((st.disengagementSignals cid).getD [] ++ [signal])
               else st.disengagementSignals c }

section FatigueLemmas

/-- Tracking a send leaves the disengagement-signal dictionary untouched. -/
lemma track_signals_unchanged (st : FatigueState) (cid : ℕ) (ch : ChannelType) (now : ℚ) :
    (trackCommunicationFrequency st cid ch now).disengagementSignals =
      st.disengagementSignals := rfl

/-- Tracking a send for a customer with no frequency record creates one with
all three counters at 1. -/
lemma track_fresh {st : FatigueState} {cid : ℕ} (ch : ChannelType) (now : ℚ)
    (hf : st.frequencyTracking cid = none) :
    ∃ g, (trackCommunicationFrequency st cid ch now).frequencyTracking cid = some g ∧
      g.dailyCount = 1 ∧ g.weeklyCount = 1 ∧ g.monthlyCount = 1 ∧
      g.lastMessageTime = some now := by
  unfold trackCommunicationFrequency
  rw [hf]
  dsimp only
  rw [if_pos rfl]
  exact ⟨_, rfl, rfl, rfl, rfl, rfl⟩

/-- Tracking a send less than one whole day after the previous one resets
nothing and increments all three counters. -/
lemma track_within_day {st : FatigueState} {cid : ℕ} (ch : ChannelType) {now last : ℚ}
    {f : CommunicationFrequency} (hf : st.frequencyTracking cid = some f)
    (hlast : f.lastMessageTime = some last) (h0 : last ≤ now) (h1 : now - last < 1) :
    ∃ g, (trackCommunicationFrequency st cid ch now).frequencyTracking cid = some g ∧
      g.dailyCount = f.dailyCount + 1 ∧ g.weeklyCount = f.weeklyCount + 1 ∧
      g.monthlyCount = f.monthlyCount + 1 ∧ g.lastMessageTime = some now := by
  have hfloor : Int.floor (now - last) = 0 := by
    rw [Int.floor_eq_zero_iff]
    exact Set.mem_Ico.mpr ⟨by linarith, by linarith⟩
  unfold trackCommunicationFrequency
  rw [hf]
  dsimp only [Option.getD_some]
  rw [hlast]
  dsimp only
  rw [hfloor]
  norm_num

/-- `check_fatigue` on a customer whose counters all read 3 and who has no
stored disengagement signals: blocked, with the daily-limit reason and a
recommended delay of at least a day. -/
lemma checkFatigue_counts3 {st : FatigueState} {cid : ℕ} (now : ℚ)
    {f : CommunicationFrequency} (hf : st.frequencyTracking cid = some f)
    (hsig : st.disengagementSignals cid = none)
    (hd : f.dailyCount = 3) (hw : f.weeklyCount = 3) (hm : f.monthlyCount = 3) :
    (checkFatigue st cid now).1.allowMessage = false ∧
    "Daily limit reached (3/3)" ∈ (checkFatigue st cid now).1.protectionReason ∧
    1440 ≤ (checkFatigue st cid now).1.recommendedDelay := by
  have hlev : calculateFatigueLevel f = FatigueLevel.high := by
    unfold calculateFatigueLevel
    rw [hd, hw, hm]
    norm_num [dailyThreshold, weeklyThreshold, monthlyThreshold, max_def]
  have hdet : detectDisengagementSignals st cid now = [] := by
    unfold detectDisengagementSignals
    rw [hsig, hf]
    simp [hw]
  unfold checkFatigue
  rw [hf]
  simp only [Option.getD_some, hdet, hlev, hd, hw]
  norm_num [dailyThreshold, weeklyThreshold]
  exact Or.inl rfl

/-- `check_fatigue` on a customer whose counters all read 2 and who has no
stored disengagement signals: the message stays allowed. -/
lemma checkFatigue_counts2 {st : FatigueState} {cid : ℕ} (now : ℚ)
    {f : CommunicationFrequency} (hf : st.frequencyTracking cid = some f)
    (hsig : st.disengagementSignals cid = none)
    (hd : f.dailyCount = 2) (hw : f.weeklyCount = 2) (hm : f.monthlyCount = 2) :
    (checkFatigue st cid now).1.allowMessage = true := by
  have hlev : calculateFatigueLevel f = FatigueLevel.medium := by
    unfold calculateFatigueLevel
    rw [hd, hw, hm]
    norm_num [dailyThreshold, weeklyThreshold, monthlyThreshold, max_def]
  have hdet : detectDisengagementSignals st cid now = [] := by
    unfold detectDisengagementSignals
    rw [hsig, hf]
    simp [hw]
  unfold checkFatigue
  rw [hf]
  simp only [Option.getD_some, hdet, hlev, hd, hw]
  norm_num [dailyThreshold, weeklyThreshold]
  simp

end FatigueLemmas

/-- **C2.** Tracking exactly 3 sends to a customer within one day (from a
fresh engine) makes the next `check_fatigue` block: `allow_message = false`,
a protection reason starting with "Daily limit reached", and a recommended
delay strictly greater than 0.  Tracking only 2 sends leaves the message
allowed. -/
theorem fatigue_daily_limit_blocks (cid : ℕ) (ch1 ch2 ch3 : ChannelType)
    (t1 t2 t3 t4 : ℚ) (h12 : t1 ≤ t2) (h23 : t2 ≤ t3) (hspan : t3 - t1 < 1) :
    (let st3 := trackCommunicationFrequency
        (trackCommunicationFrequency
          (trackCommunicationFrequency FatigueState.empty cid ch1 t1) cid ch2 t2)
        cid ch3 t3
     (checkFatigue st3 cid t4).1.allowMessage = false ∧
     (∃ r ∈ (checkFatigue st3 cid t4).1.protectionReason,
        ∃ pre post, r = pre ++ "Daily limit reached" ++ post) ∧
     0 < (checkFatigue st3 cid t4).1.recommendedDelay) ∧
    (let st2 := trackCommunicationFrequency
        (trackCommunicationFrequency FatigueState.empty cid ch1 t1) cid ch2 t2
     (checkFatigue st2 cid t4).1.allowMessage = true) := by
  have hempty : FatigueState.empty.frequencyTracking cid = none := rfl
  obtain ⟨g1, hg1, hg1d, hg1w, hg1m, hg1t⟩ := @track_fresh FatigueState.empty cid ch1 t1 hempty
  obtain ⟨g2, hg2, hg2d, hg2w, hg2m, hg2t⟩ :=
    track_within_day ch2 hg1 hg1t h12 (by linarith)
  obtain ⟨g3, hg3, hg3d, hg3w, hg3m, hg3t⟩ :=
    track_within_day ch3 hg2 hg2t h23 (by linarith)
  constructor
  · intro st3
    have hsig3 : st3.disengagementSignals cid = none := rfl
    have h3d : g3.dailyCount = 3 := by omega
    have h3w : g3.weeklyCount = 3 := by omega
    have h3m : g3.monthlyCount = 3 := by omega
    obtain ⟨hallow, hmem, hdelay⟩ := checkFatigue_counts3 t4 hg3 hsig3 h3d h3w h3m
    exact ⟨hallow, ⟨"Daily limit reached (3/3)", hmem, "", " (3/3)", rfl⟩, by linarith⟩
  · intro st2
    have hsig2 : st2.disengagementSignals cid = none := rfl
    have h2d : g2.dailyCount = 2 := by omega
    have h2w : g2.weeklyCount = 2 := by omega
    have h2m : g2.monthlyCount = 2 := by omega
    exact checkFatigue_counts2 t4 hg2 hsig2 h2d h2w h2m

/-- **C2 witness**: customer 7, three SMS sends at days 100, 100.25 and
100.5, checked at day 100.75: blocked with the daily-limit reason; two sends
only: allowed. -/
theorem fatigue_daily_limit_blocks_witness :
    ((100 : ℚ) ≤ 401 / 4 ∧ (401 : ℚ) / 4 ≤ 201 / 2 ∧ (201 : ℚ) / 2 - 100 < 1) ∧
    ((let st3 := trackCommunicationFrequency
        (trackCommunicationFrequency
          (trackCommunicationFrequency FatigueState.empty 7 ChannelType.sms 100)
          7 ChannelType.sms (401 / 4))
        7 ChannelType.sms (201 / 2)
      (checkFatigue st3 7 (403 / 4)).1.allowMessage = false ∧
      (∃ r ∈ (checkFatigue st3 7 (403 / 4)).1.protectionReason,
         ∃ pre post, r = pre ++ "Daily limit reached" ++ post) ∧
      0 < (checkFatigue st3 7 (403 / 4)).1.recommendedDelay) ∧
     (let st2 := trackCommunicationFrequency
        (trackCommunicationFrequency FatigueState.empty 7 ChannelType.sms 100)
        7 ChannelType.sms (401 / 4)
      (checkFatigue st2 7 (403 / 4)).1.allowMessage = true)) :=
  ⟨⟨by norm_num, by norm_num, by norm_num⟩,
   fatigue_daily_limit_blocks 7 ChannelType.sms ChannelType.sms ChannelType.sms
     100 (401 / 4) (201 / 2) (403 / 4) (by norm_num) (by norm_num) (by norm_num)⟩

/-- **C9.** `check_fatigue` is read-only: it returns the engine state
unchanged for every input (the frequency lookup uses a non-inserting
default and the synthetic low-engagement signal is never stored), while
`track_communication_frequency` and `record_disengagement_signal` do write
their dictionaries (shown on the empty state, where each creates the
customer's entry). -/
theorem checkFatigue_readonly :
    (∀ (st : FatigueState) (cid : ℕ) (now : ℚ), (checkFatigue st cid now).2 = st) ∧
    (∀ (cid : ℕ) (ch : ChannelType) (now : ℚ),
      (trackCommunicationFrequency FatigueState.empty cid ch now).frequencyTracking cid ≠
        none) ∧
    (∀ (cid : ℕ) (sig : DisengagementSignal),
      (recordDisengagementSignal FatigueState.empty cid sig).disengagementSignals cid ≠
        none) := by
  refine ⟨fun _ _ _ => rfl, fun cid ch now => ?_, fun cid sig => ?_⟩
  · simp [trackCommunicationFrequency, FatigueState.empty]
  · simp [recordDisengagementSignal, FatigueState.empty]

/-! ## Demo query engine metrics — `src/ai_cpaas_demo/data/demo_query.py`

`_calculate_before_metrics` and `_calculate_after_metrics` are pure
arithmetic on the result-dictionary counts.  The functions below take the
lengths of `eligible_users`, `suppressed_users`, `whatsapp_routing` and the
`time_optimized` list (whose entries' only consulted key is
`selected_channel`; `isinstance(user, dict)` always holds for the entries
the engine builds).  Python floats are exact rationals here. -/

structure BeforeMetrics where
  totalSent : ℕ
  costPerMessage : ℚ
  totalCost : ℚ
  expectedEngagement : ℚ
  expectedUnsubscribes : ℚ
  expectedComplaints : ℚ
deriving Repr, DecidableEq

/-- `_calculate_before_metrics(total_customers)`: spray-and-pray SMS blast. -/
def calculateBeforeMetrics (totalCustomers : ℕ) : BeforeMetrics :=
  { totalSent := totalCustomers,
    costPerMessage := 75 / 10000,
    totalCost := (totalCustomers : ℚ) * (75 / 10000),
    expectedEngagement := (totalCustomers : ℚ) * (12 / 100),
    expectedUnsubscribes := (totalCustomers : ℚ) * (8 / 100),
    expectedComplaints := (totalCustomers : ℚ) * (5 / 100) }

/-- One entry of `results["time_optimized"]`; `_calculate_after_metrics`
reads only `user.get("selected_channel")`. -/
structure TimeOptimizedEntry where
  selectedChannel : Option String
deriving Repr, DecidableEq

structure AfterMetrics where
  totalSent : ℕ
  suppressed : ℕ
  whatsappUsers : ℤ
  smsUsers : ℤ
  emailUsers : ℤ
  totalCost : ℚ
  expectedEngagement : ℚ
  expectedUnsubscribes : ℚ
  expectedComplaints : ℚ
  costSavings : ℚ
  engagementImprovement : ℚ
deriving Repr, DecidableEq

/-- `_calculate_after_metrics(results)`: channel mix (email counted from the
`selected_channel == "email"` tags, SMS as remainder — a Python `int` that
can go negative, hence `ℤ`), per-channel costs, fixed expectation rates, and
the literal `engagement_improvement = (0.62 - 0.12) * 100`. -/
def calculateAfterMetrics (eligibleUsers suppressedUsers whatsappRouting : ℕ)
    (timeOptimized : List TimeOptimizedEntry) (beforeTotalCost : ℚ) : AfterMetrics :=
  let emailUsers : ℤ :=
    (timeOptimized.countP (fun u => u.selectedChannel = some "email") : ℤ)
  let smsUsers : ℤ := (eligibleUsers : ℤ) - (whatsappRouting : ℤ) - emailUsers
  let whatsappCost : ℚ := (whatsappRouting : ℚ) * (5 / 1000)
  let smsCost : ℚ := (smsUsers : ℚ) * (75 / 10000)
  let emailCost : ℚ := (emailUsers : ℚ) * (1 / 10000)
  let totalCost : ℚ := whatsappCost + smsCost + emailCost
  { totalSent := eligibleUsers,
    suppressed := suppressedUsers,
    whatsappUsers := (whatsappRouting : ℤ),
    smsUsers := smsUsers,
    emailUsers := emailUsers,
    totalCost := totalCost,
    expectedEngagement := (eligibleUsers : ℚ) * (62 / 100),
    expectedUnsubscribes := (eligibleUsers : ℚ) * (5 / 1000),
    expectedComplaints := (eligibleUsers : ℚ) * (2 / 1000),
    costSavings := beforeTotalCost - totalCost,
    engagementImprovement := (62 / 100 - 12 / 100) * 100 }

/-- **C3.** The reported `engagement_improvement` is the constant 50
percentage points for every input, and with 100 eligible customers, 30
routed to WhatsApp and 10 entries tagged `selected_channel = "email"`
(hence 60 on SMS), the after-metrics total cost is
`30×0.005 + 60×0.0075 + 10×0.0001 = 0.601`. -/
theorem afterMetrics_cost_and_fixed_improvement :
    (∀ (e s w : ℕ) (t : List TimeOptimizedEntry) (b : ℚ),
      (calculateAfterMetrics e s w t b).engagementImprovement = 50) ∧
    (∀ (s : ℕ) (t : List TimeOptimizedEntry) (b : ℚ),
      t.countP (fun u => u.selectedChannel = some "email") = 10 →
      (calculateAfterMetrics 100 s 30 t b).totalCost = 601 / 1000) := by
  constructor
  · intro e s w t b
    unfold calculateAfterMetrics
    norm_num
  · intro s t b hcount
    unfold calculateAfterMetrics
    rw [hcount]
    norm_num

/-- **C3 witness**: a `time_optimized` list with exactly 10 email-tagged
entries among 100 eligible and 30 WhatsApp-routed customers, against the
spray-and-pray baseline over 100 customers. -/
theorem afterMetrics_cost_and_fixed_improvement_witness :
    ((List.replicate 10 (TimeOptimizedEntry.mk (some "email")) ++
        List.replicate 50 (TimeOptimizedEntry.mk none)).countP
          (fun u => u.selectedChannel = some "email") = 10) ∧
    (calculateAfterMetrics 100 0 30
      (List.replicate 10 (TimeOptimizedEntry.mk (some "email")) ++
        List.replicate 50 (TimeOptimizedEntry.mk none))
      (calculateBeforeMetrics 100).totalCost).totalCost = 601 / 1000 :=
  ⟨by decide,
   afterMetrics_cost_and_fixed_improvement.2 0
     (List.replicate 10 (TimeOptimizedEntry.mk (some "email")) ++
       List.replicate 50 (TimeOptimizedEntry.mk none))
     (calculateBeforeMetrics 100).totalCost (by decide)⟩

/-! ## Segment registry — `src/ai_cpaas_demo/data/demo_query.py`

`_get_or_create_segment_id` deduplicates segments by an MD5 hex digest of
`"{location}|{sku}|{json.dumps(additional_filters, sort_keys=True)}"`.  The
MD5 digest is modelled as a parameter `md5Hex : String → String` (a
cryptographic primitive is not re-implemented here); `json.dumps(...,
sort_keys=True)` is a canonical injective encoding of the filter map, so the
filters enter as their encoded string.  `datetime.now().strftime(...)`
enters as the formatted 14-character `timestamp` string.  Python string
slicing/upper-casing/splitting are implemented structurally over the
character list of the string. -/

/-- Python `s[:n]`. -/
def strTake (s : String) (n : ℕ) : String := ⟨s.data.take n⟩

/-- Python `s.upper()`. -/
def strUpper (s : String) : String := ⟨s.data.map Char.toUpper⟩

def splitOnCharAux (sep : Char) : List Char → List Char → List String
  | [], acc => [⟨acc.reverse⟩]
  | c :: rest, acc =>
    if c = sep then ⟨acc.reverse⟩ :: splitOnCharAux sep rest []
    else splitOnCharAux sep rest (c :: acc)

/-- Python `s.split(sep)` for a one-character separator. -/
def splitOnChar (sep : Char) (s : String) : List String := splitOnCharAux sep s.data []

/-- Python `s.replace('-', '')`. -/
def removeDashes (s : String) : String := ⟨s.data.filter (fun c => c ≠ '-')⟩

/-- `_generate_segment_id(location, sku, eligible_count)`:
`SEG-{LOC3}-{SKUCODE}-{TIMESTAMP}-{HASH4}`. -/
def generateSegmentId (md5Hex : String → String) (location sku : String)
    (eligibleCount : ℕ) (timestamp : String) : String :=
  let locationCode := strUpper (strTake location 3)
  let skuParts := splitOnChar '-' sku
  let skuCode :=
    if 3 ≤ skuParts.length then
      strUpper (strTake ((skuParts.get? 1).getD "") 3) ++ (skuParts.get? 2).getD ""
    else strUpper (strTake (removeDashes sku) 6)
  let hashValue :=
    strUpper (strTake (md5Hex (location ++ sku ++ timestamp ++ toString eligibleCount)) 4)
  "SEG-" ++ locationCode ++ "-" ++ skuCode ++ "-" ++ timestamp ++ "-" ++ hashValue

/-- `_get_or_create_segment_id`: criteria string, digest lookup, reuse or
generate-and-store.  Returns `(segment_id, is_reused, updated registry)`. -/
def getOrCreateSegmentId (md5Hex : String → String) (segments : String → Option String)
    (location sku : String) (eligibleCount : ℕ) (filtersJson : String)
    (timestamp : String) : String × Bool × (String → Option String) :=
  let criteriaStr := location ++ "|" ++ sku ++ "|" ++ filtersJson
  let criteriaHash := md5Hex criteriaStr
  match segments criteriaHash with
  | some segmentId => (segmentId, true, segments)
  | none =>
      let segmentId := generateSegmentId md5Hex location sku eligibleCount timestamp
      (segmentId, false, fun k => if k = criteriaHash then some segmentId else segments k)

/-- Generated segment ids differ whenever the formatted timestamps differ
(as equal-length strings): the id embeds the timestamp between fixed-shape
neighbours. -/
lemma generateSegmentId_ne (md5Hex : String → String) (loc sku : String)
    (n1 n2 : ℕ) {ts1 ts2 : String} (hlen : ts1.length = ts2.length) (hne : ts1 ≠ ts2) :
    generateSegmentId md5Hex loc sku n1 ts1 ≠ generateSegmentId md5Hex loc sku n2 ts2 := by
  intro h
  apply hne
  unfold generateSegmentId at h
  have hd := congrArg String.data h
  simp only [String.data_append, List.append_assoc] at hd
  have hd1 := List.append_cancel_left hd
  have hd2 := List.append_cancel_left hd1
  have hd3 := List.append_cancel_left hd2
  have hd4 := List.append_cancel_left hd3
  have hd5 := List.append_cancel_left hd4
  have hlen' : ts1.data.length = ts2.data.length := hlen
  have hts := (List.append_inj hd5 hlen').1
  cases ts1
  cases ts2
  exact congrArg String.mk hts

/-- **C7 counterexample.** The claim "a changed additional-filters map
produces a new segment id different from the previously stored one" fails:
with the same location, SKU, eligible count and generation second, the
second (changed-filters) call stores a new entry (`is_reused = false`) yet
returns a segment id **equal** to the previously stored one, because
`_generate_segment_id` does not hash the filters.  The digest parameter is
instantiated with an injective function, so this is not a hash collision. -/
theorem segmentId_changed_filters_same_id :
    (let md5Hex : String → String := fun s => s
     let first := getOrCreateSegmentId md5Hex (fun _ => none)
        "Bangalore" "SKU-LAPTOP-001" 42 "\x7b\x7d" "20260120143022"
     let second := getOrCreateSegmentId md5Hex first.2.2
        "Bangalore" "SKU-LAPTOP-001" 42 "\x7b\x22min_purchases\x22: 2\x7d" "20260120143022"
     ("\x7b\x7d" : String) ≠ "\x7b\x22min_purchases\x22: 2\x7d" ∧
     second.2.1 = false ∧ second.1 = first.1) := by
  refine ⟨by decide, by decide, by decide⟩

/-- **C7 (amended).** Calling the segment operation twice with identical
(location, SKU, additional-filters) criteria returns the same segment id
both times and marks the second call as reused; and a changed filter map
(same location/SKU) produces a freshly generated, stored segment id that
differs from the previously stored one **provided** the two digests differ
(no MD5 collision), both criteria are new to the registry, and the two
generation timestamps are distinct equal-length strings. -/
theorem segment_reuse_and_distinct (md5Hex : String → String)
    (segments : String → Option String) (location sku fJ1 fJ2 : String)
    (n1 n2 : ℕ) (ts0 ts1 ts2 : String)
    (hnocoll : md5Hex (location ++ "|" ++ sku ++ "|" ++ fJ1) ≠
      md5Hex (location ++ "|" ++ sku ++ "|" ++ fJ2))
    (hfresh1 : segments (md5Hex (location ++ "|" ++ sku ++ "|" ++ fJ1)) = none)
    (hfresh2 : segments (md5Hex (location ++ "|" ++ sku ++ "|" ++ fJ2)) = none)
    (hlen : ts1.length = ts2.length) (hts : ts1 ≠ ts2) :
    (let c1 := getOrCreateSegmentId md5Hex segments location sku n1 fJ1 ts0
     let c2 := getOrCreateSegmentId md5Hex c1.2.2 location sku n2 fJ1 ts1
     c2.1 = c1.1 ∧ c2.2.1 = true) ∧
    (let c1 := getOrCreateSegmentId md5Hex segments location sku n1 fJ1 ts1
     let c2 := getOrCreateSegmentId md5Hex c1.2.2 location sku n2 fJ2 ts2
     c2.2.1 = false ∧ c2.1 ≠ c1.1) := by
  constructor
  · cases hkey : segments (md5Hex (location ++ "|" ++ sku ++ "|" ++ fJ1)) with
    | some sid =>
      simp only [getOrCreateSegmentId, hkey]
      exact ⟨trivial, trivial⟩
    | none =>
      simp [getOrCreateSegmentId, hkey]
  · simp only [getOrCreateSegmentId, hfresh1]
    have hk2 : (fun k =>
        if k = md5Hex (location ++ "|" ++ sku ++ "|" ++ fJ1) then
          some (generateSegmentId md5Hex location sku n1 ts1)
        else segments k) (md5Hex (location ++ "|" ++ sku ++ "|" ++ fJ2)) = none := by
      simp only [if_neg (Ne.symm hnocoll), hfresh2]
    simp only [hk2]
    exact ⟨trivial, generateSegmentId_ne md5Hex location sku n2 n1 hlen.symm (Ne.symm hts)⟩

/-- **C7 (amended) witness**: identity digest, empty registry, Bangalore
laptop criteria, two filter encodings and two distinct 14-character
timestamps. -/
theorem segment_reuse_and_distinct_witness :
    (((fun (s : String) => s) ("Bangalore" ++ "|" ++ "SKU-LAPTOP-001" ++ "|" ++ "\x7b\x7d") ≠
        (fun (s : String) => s)
          ("Bangalore" ++ "|" ++ "SKU-LAPTOP-001" ++ "|" ++ "\x7b\x22min_purchases\x22: 2\x7d")) ∧
      ("20260120143022" : String).length = ("20260120143023" : String).length ∧
      ("20260120143022" : String) ≠ "20260120143023") ∧
    ((let c1 := getOrCreateSegmentId (fun s => s) (fun _ => none)
        "Bangalore" "SKU-LAPTOP-001" 42 "\x7b\x7d" "20260120143000"
      let c2 := getOrCreateSegmentId (fun s => s) c1.2.2
        "Bangalore" "SKU-LAPTOP-001" 17 "\x7b\x7d" "20260120143022"
      c2.1 = c1.1 ∧ c2.2.1 = true) ∧
     (let c1 := getOrCreateSegmentId (fun s => s) (fun _ => none)
        "Bangalore" "SKU-LAPTOP-001" 42 "\x7b\x7d" "20260120143022"
      let c2 := getOrCreateSegmentId (fun s => s) c1.2.2
        "Bangalore" "SKU-LAPTOP-001" 17 "\x7b\x22min_purchases\x22: 2\x7d" "20260120143023"
      c2.2.1 = false ∧ c2.1 ≠ c1.1)) :=
  ⟨⟨by decide, by decide, by decide⟩,
   segment_reuse_and_distinct (fun s => s) (fun _ => none)
     "Bangalore" "SKU-LAPTOP-001" "\x7b\x7d" "\x7b\x22min_purchases\x22: 2\x7d" 42 17
     "20260120143000" "20260120143022" "20260120143023"
     (by decide) rfl rfl (by decide) (by decide)⟩

/-! ## Safety guardrail — `src/ai_cpaas_demo/engines/guardrail/base.py`

`check_safety` combines a simulated sentiment analysis of recent
interactions, a simulated open-support-issue flag, an analysis of the
proposed message, and a risk assessment.  The simulated interaction list
and the support flag are derived in the source from Python's builtin
`hash(customer_id)`; they enter the embedding as parameters.  An
interaction dictionary's consulted keys are `type`, `content` and
`timestamp` (the stored `sentiment`/`channel` tags are never read by the
checked code).  Timestamps are seconds as `ℚ`. -/

inductive MessageType where
  | promotional | transactional | support
deriving Repr, DecidableEq

structure Interaction where
  itype : String
  content : String
  timestamp : Option ℚ
deriving Repr, DecidableEq

/-- Python `lower()`. -/
def strLower (s : String) : String := ⟨s.data.map Char.toLower⟩

/-- Python `needle in haystack` on strings: the needle's characters appear
contiguously somewhere in the haystack. -/
def strContains (hay needle : String) : Bool :=
  (List.range (hay.data.length + 1)).any (fun i => needle.data.isPrefixOf (hay.data.drop i))

/-- `self.negative_keywords`. -/
def negativeKeywords : List String :=
  ["angry", "frustrated", "upset", "disappointed", "terrible", "awful",
   "horrible", "worst", "hate", "disgusted", "furious", "outraged",
   "complaint", "complain", "problem", "issue", "broken", "failed",
   "error", "bug", "wrong", "bad", "poor", "unacceptable"]

/-- `self.promotional_keywords`. -/
def promotionalKeywords : List String :=
  ["sale", "discount", "offer", "deal", "promotion", "special",
   "limited time", "buy now", "order now", "save", "percent off",
   "free shipping", "coupon", "promo code", "exclusive"]

/-- Positive keywords local to `_analyze_text_sentiment`. -/
def positiveKeywords : List String :=
  ["good", "great", "excellent", "love", "happy", "satisfied", "thank"]

/-- Urgency keywords local to `_analyze_message_content`. -/
def urgencyKeywords : List String :=
  ["urgent", "immediate", "asap", "now", "today", "expires"]

structure TextSentiment where
  sentiment : String
  score : ℚ
  negativeIndicators : ℕ
  positiveIndicators : ℕ
deriving Repr, DecidableEq

/-- `_analyze_text_sentiment`: keyword counting into a clamped score. -/
def analyzeTextSentiment (text : String) : TextSentiment :=
  let textLower := strLower text
  let negativeCount := (negativeKeywords.filter (fun k => strContains textLower k)).length
  let positiveCount := (positiveKeywords.filter (fun k => strContains textLower k)).length
  let pair : String × ℚ :=
    if positiveCount < negativeCount then
      ("negative", -(5 / 10) - (negativeCount : ℚ) * (2 / 10))
    else if negativeCount < positiveCount then
      ("positive", 5 / 10 + (positiveCount : ℚ) * (2 / 10))
    else ("neutral", 0)
  { sentiment := pair.1, score := max (-1) (min 1 pair.2),
    negativeIndicators := negativeCount, positiveIndicators := positiveCount }

structure SentimentAnalysis where
  overallSentiment : String
  sentimentScore : ℚ
  negativeInteractions : ℕ
  supportInteractions : ℕ
  recentInteractionCount : ℕ
  lastInteractionTime : Option ℚ
deriving Repr, DecidableEq

/-- `analyze_customer_sentiment` given the (simulated) recent-interaction
list: per-interaction text sentiment, average score, overall label. -/
def analyzeCustomerSentiment (interactions : List Interaction) : SentimentAnalysis :=
  let results := interactions.map (fun i => analyzeTextSentiment i.content)
  let scores := results.map (·.score)
  let negativeIndicators := (results.filter (fun r => r.sentiment = "negative")).length
  let supportCount := (interactions.filter (fun i => i.itype = "support")).length
  let avg : ℚ := if scores.length = 0 then 0 else scores.sum / (scores.length : ℚ)
  { overallSentiment :=
      if avg < -(3 / 10) then "negative" else if avg < 3 / 10 then "neutral" else "positive",
    sentimentScore := avg,
    negativeInteractions := negativeIndicators,
    supportInteractions := supportCount,
    recentInteractionCount := interactions.length,
    lastInteractionTime := interactions.head?.bind (·.timestamp) }

structure MessageAnalysis where
  isPromotional : Bool
  hasNegativeTone : Bool
  isUrgent : Bool
  messageType : MessageType
  msgLength : ℕ
deriving Repr, DecidableEq

/-- `_analyze_message_content`. -/
def analyzeMessageContent (message : String) (messageType : MessageType) : MessageAnalysis :=
  let messageLower := strLower message
  { isPromotional := decide (messageType = MessageType.promotional) ||
      promotionalKeywords.any (fun k => strContains messageLower k),
    hasNegativeTone := negativeKeywords.any (fun k => strContains messageLower k),
    isUrgent := urgencyKeywords.any (fun k => strContains messageLower k),
    messageType := messageType,
    msgLength := message.length }

structure GuardrailResult where
  approved : Bool
  riskLevel : String
  blockedReasons : List String
  alternativeActions : List String
  confidence : ℚ
deriving Repr, DecidableEq

/-- `_assess_risk`: the sequential risk rules, translated block by block
(`now` is the wall clock used for the recent-interaction timing rule). -/
def assessRisk (s : SentimentAnalysis) (hasSupportIssues : Bool)
    (m : MessageAnalysis) (recentInteractions : List Interaction) (now : ℚ) :
    GuardrailResult :=
  let a0 : GuardrailResult :=
    { approved := true, riskLevel := "low", blockedReasons := [],
      alternativeActions := [], confidence := 8 / 10 }
  let a1 :=
    if s.overallSentiment = "negative" ∧ m.isPromotional = true then
      { approved := false, riskLevel := "high",
        blockedReasons := a0.blockedReasons ++
          ["Customer has recent negative sentiment - promotional messages blocked"],
        alternativeActions := a0.alternativeActions ++
          ["Wait 24-48 hours before sending promotional content",
           "Send supportive or helpful content instead"],
        confidence := 9 / 10 }
    else a0
  let a2 :=
    if hasSupportIssues = true ∧ m.isPromotional = true then
      { approved := false, riskLevel := "high",
        blockedReasons := a1.blockedReasons ++
          ["Customer has unresolved support issues - promotional messages blocked"],
        alternativeActions := a1.alternativeActions ++
          ["Resolve support issues before sending promotional content",
           "Send support follow-up message instead"],
        confidence := 95 / 100 }
    else a1
  let a3 :=
    if 1 < s.negativeInteractions ∧ a2.blockedReasons = [] then
      let b :=
        { a2 with
          blockedReasons := a2.blockedReasons ++
            ["Multiple recent negative interactions detected"],
          alternativeActions := a2.alternativeActions ++
            ["Consider personalized outreach or customer service contact"],
          riskLevel := "medium", confidence := 7 / 10 }
      if m.isPromotional then
        { b with
          approved := false,
          alternativeActions := b.alternativeActions ++
            ["Send non-promotional content or wait for sentiment improvement"] }
      else b
    else a2
  let a4 : GuardrailResult :=
    match recentInteractions with
    | [] => a3
    | last :: _ =>
      match last.timestamp with
      | none => a3
      | some ts =>
        if (now - ts) / 3600 < 2 ∧ s.overallSentiment = "negative" then
          { approved := false, riskLevel := "high",
            blockedReasons := a3.blockedReasons ++
              ["Very recent negative interaction - cooling off period recommended"],
            alternativeActions := a3.alternativeActions ++
              ["Wait at least 24 hours before contacting customer"],
            confidence := 85 / 100 }
        else a3
  if a4.approved = true ∧ a4.blockedReasons = [] then
    let c := { a4 with alternativeActions :=
      a4.alternativeActions ++ ["Message approved - proceed with sending"] }
    if m.isPromotional then
      { c with alternativeActions := c.alternativeActions ++
        ["Consider personalizing the offer based on customer preferences"] }
    else c
  else a4

/-- `check_safety(request)`: sentiment analysis over the simulated
interactions, message analysis over the proposed message, risk assessment
over the request's own `recent_interactions`. -/
def checkSafety (simulatedInteractions : List Interaction) (hasSupportIssues : Bool)
    (proposedMessage : String) (messageType : MessageType)
    (requestInteractions : List Interaction) (now : ℚ) : GuardrailResult :=
  assessRisk (analyzeCustomerSentiment simulatedInteractions) hasSupportIssues
    (analyzeMessageContent proposedMessage messageType) requestInteractions now

/-- `_assess_risk` under negative overall sentiment and a promotional
message: the first rule blocks with risk "high", and no later rule can
unblock or lower the risk (the medium rule is guarded by
`not blocked_reasons`). -/
lemma assessRisk_neg_promo (s : SentimentAnalysis) (hsi : Bool) (m : MessageAnalysis)
    (reqs : List Interaction) (now : ℚ)
    (hneg : s.overallSentiment = "negative") (hpromo : m.isPromotional = true) :
    (assessRisk s hsi m reqs now).approved = false ∧
    (assessRisk s hsi m reqs now).riskLevel = "high" ∧
    (assessRisk s hsi m reqs now).blockedReasons ≠ [] ∧
    (assessRisk s hsi m reqs now).alternativeActions ≠ [] := by
  unfold assessRisk
  cases reqs with
  | nil =>
    cases hsi <;> simp [hneg, hpromo]
  | cons last rest =>
    obtain ⟨ity, cont, ts⟩ := last
    cases ts with
    | none => cases hsi <;> simp [hneg, hpromo]
    | some t =>
      cases hsi <;> by_cases hlt : (now - t) / 3600 < 2 <;> simp [hneg, hpromo, hlt]

/-- **C4.** Every guardrail check whose simulated sentiment analysis yields
overall sentiment "negative" and whose proposed message is classified
promotional produces `approved = false`, `risk_level = "high"`, and
non-empty `blocked_reasons` and `alternative_actions` lists. -/
theorem guardrail_negative_promotional_blocked
    (sims : List Interaction) (hasSupportIssues : Bool) (msg : String)
    (mt : MessageType) (reqs : List Interaction) (now : ℚ)
    (hneg : (analyzeCustomerSentiment sims).overallSentiment = "negative")
    (hpromo : (analyzeMessageContent msg mt).isPromotional = true) :
    (checkSafety sims hasSupportIssues msg mt reqs now).approved = false ∧
    (checkSafety sims hasSupportIssues msg mt reqs now).riskLevel = "high" ∧
    (checkSafety sims hasSupportIssues msg mt reqs now).blockedReasons ≠ [] ∧
    (checkSafety sims hasSupportIssues msg mt reqs now).alternativeActions ≠ [] :=
  assessRisk_neg_promo _ hasSupportIssues _ reqs now hneg hpromo

/-- The witness interaction's text scores `-0.5 - 1×0.2 = -0.7` (one
negative keyword hit, no positive hits). -/
lemma guardrailWitness_score : (analyzeTextSentiment "This is bad").score = -7 / 10 := by
  have h1 : (negativeKeywords.filter
      (fun k => strContains (strLower "This is bad") k)).length = 1 := by decide
  have h2 : (positiveKeywords.filter
      (fun k => strContains (strLower "This is bad") k)).length = 0 := by decide
  unfold analyzeTextSentiment
  simp only [h1, h2]
  norm_num [max_def, min_def]

/-- The witness interaction list's average score `-0.7` is below `-0.3`. -/
lemma guardrailWitness_negSentiment :
    (analyzeCustomerSentiment [Interaction.mk "email" "This is bad" none]).overallSentiment
      = "negative" := by
  unfold analyzeCustomerSentiment
  simp only [List.map_cons, List.map_nil, guardrailWitness_score]
  norm_num

/-- **C4 witness**: one simulated interaction reading "This is bad" (keyword
sentiment negative) and a promotional proposed message "Big sale now". -/
theorem guardrail_negative_promotional_blocked_witness :
    ((analyzeCustomerSentiment [Interaction.mk "email" "This is bad" none]).overallSentiment
        = "negative" ∧
      (analyzeMessageContent "Big sale now" MessageType.promotional).isPromotional = true) ∧
    ((checkSafety [Interaction.mk "email" "This is bad" none]
        false "Big sale now" MessageType.promotional [] 0).approved = false ∧
     (checkSafety [Interaction.mk "email" "This is bad" none]
        false "Big sale now" MessageType.promotional [] 0).riskLevel = "high" ∧
     (checkSafety [Interaction.mk "email" "This is bad" none]
        false "Big sale now" MessageType.promotional [] 0).blockedReasons ≠ [] ∧
     (checkSafety [Interaction.mk "email" "This is bad" none]
        false "Big sale now" MessageType.promotional [] 0).alternativeActions ≠ []) :=
  ⟨⟨guardrailWitness_negSentiment, by decide⟩,
   guardrail_negative_promotional_blocked
     [Interaction.mk "email" "This is bad" none]
     false "Big sale now" MessageType.promotional [] 0
     guardrailWitness_negSentiment (by decide)⟩

/-! ## Delivery tracker — `src/ai_cpaas_demo/messaging/delivery_tracker.py`

In-memory mode: a message-id → record map, a customer-id → ordered
message-id list (`defaultdict(list)`), and per-channel statistics.
`sent_at` timestamps are `ℚ`; `datetime.utcnow()` enters as a `now`
parameter.  Python's stable `list.sort(key=sent_at, reverse=True)` is
modelled by a structural stable insertion sort on the descending order
(equal keys keep their original relative order, as in CPython).  Record
`metadata` is never consulted by the embedded operations and is omitted. -/

inductive DeliveryStatus where
  | pending | sent | delivered | failed | bounced | complained | unsubscribed
deriving Repr, DecidableEq

structure DeliveryRecord where
  messageId : String
  customerId : String
  channel : String
  destination : String
  status : DeliveryStatus
  sentAt : ℚ
  deliveredAt : Option ℚ
  errorCode : Option String
  errorMessage : Option String
  attempts : ℕ
deriving Repr, DecidableEq

structure ChannelStats where
  channel : String
  totalSent : ℕ
  totalDelivered : ℕ
  totalFailed : ℕ
  totalBounced : ℕ
  totalComplained : ℕ
deriving Repr, DecidableEq

def ChannelStats.fresh (channel : String) : ChannelStats :=
  { channel := channel, totalSent := 0, totalDelivered := 0, totalFailed := 0,
    totalBounced := 0, totalComplained := 0 }

/-- `_update_channel_stats(channel, event)`: bump the named counter,
creating the stats record on first use. -/
def bumpChannelStats (stats : String → ChannelStats) (channel event : String) :
    String → ChannelStats :=
  fun c =>
    if c = channel then
      let s := stats channel
      if event = "sent" then { s with totalSent := s.totalSent + 1 }
      else if event = "delivered" then { s with totalDelivered := s.totalDelivered + 1 }
      else if event = "failed" then { s with totalFailed := s.totalFailed + 1 }
      else if event = "bounced" then { s with totalBounced := s.totalBounced + 1 }
      else if event = "complained" then { s with totalComplained := s.totalComplained + 1 }
      else s
    else stats c

structure TrackerState where
  deliveries : String → Option DeliveryRecord
  customerHistory : String → List String
  channelStats : String → ChannelStats

def TrackerState.empty : TrackerState :=
  { deliveries := fun _ => none, customerHistory := fun _ => [],
    channelStats := fun c => ChannelStats.fresh c }

/-- `record_sent`: create a `sent` record, append the message id to the
customer's history, bump the channel's sent counter. -/
def recordSent (st : TrackerState) (messageId customerId channel destination : String)
    (now : ℚ) : TrackerState :=
  let record : DeliveryRecord :=
    { messageId := messageId, customerId := customerId, channel := channel,
      destination := destination, status := DeliveryStatus.sent, sentAt := now,
      deliveredAt := none, errorCode := none, errorMessage := none, attempts := 1 }
  { deliveries := fun m => if m = messageId then some record else st.deliveries m,
    customerHistory := fun c =>
      if c = customerId then st.customerHistory c ++ [messageId] else st.customerHistory c,
    channelStats := bumpChannelStats st.channelStats channel "sent" }

/-- `update_status`: transition an existing record's status (stamping
`delivered_at` or the error fields) and bump the matching channel counter;
an unknown message id is a warning-logged no-op. -/
def updateStatus (st : TrackerState) (messageId : String) (status : DeliveryStatus)
    (errorCode errorMessage : Option String) (now : ℚ) : TrackerState :=
  match st.deliveries messageId with
  | none => st
  | some record =>
    let r1 := { record with status := status }
    let r2 :=
      match status with
      | DeliveryStatus.delivered => { r1 with deliveredAt := some now }
      | DeliveryStatus.failed => { r1 with errorCode := errorCode, errorMessage := errorMessage }
      | DeliveryStatus.bounced => { r1 with errorCode := errorCode, errorMessage := errorMessage }
      | _ => r1
    let stats :=
      match status with
      | DeliveryStatus.delivered => bumpChannelStats st.channelStats record.channel "delivered"
      | DeliveryStatus.failed => bumpChannelStats st.channelStats record.channel "failed"
      | DeliveryStatus.bounced => bumpChannelStats st.channelStats record.channel "bounced"
      | DeliveryStatus.complained => bumpChannelStats st.channelStats record.channel "complained"
      | _ => st.channelStats
    { st with
      deliveries := fun m => if m = messageId then some r2 else st.deliveries m,
      channelStats := stats }

/-- Insert into a list sorted by `sent_at` descending, before the first
element not strictly more recent (so equal keys keep original order when
the original list is consumed front to back). -/
def insertBySentDesc (r : DeliveryRecord) : List DeliveryRecord → List DeliveryRecord
  | [] => [r]
  | x :: xs => if r.sentAt < x.sentAt then x :: insertBySentDesc r xs else r :: x :: xs

/-- Stable sort by `sent_at` descending — the effect of
`records.sort(key=lambda r: r.sent_at, reverse=True)`. -/
def sortBySentDesc : List DeliveryRecord → List DeliveryRecord
  | [] => []
  | r :: rest => insertBySentDesc r (sortBySentDesc rest)

/-- `get_customer_history(customer_id, limit)`: look up each stored message
id (skipping ids with no record, as the comprehension's `if mid in
self.deliveries` does), sort most recent first, truncate. -/
def getCustomerHistory (st : TrackerState) (customerId : String) (limit : ℕ) :
    List DeliveryRecord :=
  let records := (st.customerHistory customerId).filterMap st.deliveries
  (sortBySentDesc records).take limit

/-- `should_fallback(customer_id, channel)`: filter the 5 most recent
deliveries to the channel; fewer than 2 → no fallback; otherwise fall back
when both of the first 2 are failed or bounced. -/
def shouldFallback (st : TrackerState) (customerId channel : String) : Bool :=
  let history := getCustomerHistory st customerId 5
  let channelHistory := history.filter (fun r => r.channel = channel)
  if channelHistory.length < 2 then false
  else
    let recentFailures := ((channelHistory.take 2).filter
      (fun r => r.status = DeliveryStatus.failed ∨ r.status = DeliveryStatus.bounced)).length
    decide (2 ≤ recentFailures)

/-- The claim's hypothesis, stated from the spec's words: the customer's two
most recent delivery attempts **on channel C** — over the customer's entire
history, not just the 5 most recent deliveries — exist and both are failed
or bounced. -/
def spec_twoMostRecentOnChannelFailed (st : TrackerState) (customerId channel : String) :
    Bool :=
  let records := (st.customerHistory customerId).filterMap st.deliveries
  let onChannel := (sortBySentDesc records).filter (fun r => r.channel = channel)
  decide (2 ≤ onChannel.length) &&
    (onChannel.take 2).all
      (fun r => decide (r.status = DeliveryStatus.failed ∨ r.status = DeliveryStatus.bounced))

lemma insertBySentDesc_perm (r : DeliveryRecord) (l : List DeliveryRecord) :
    (insertBySentDesc r l).Perm (r :: l) := by
  induction l with
  | nil => exact List.Perm.refl _
  | cons x xs ih =>
    unfold insertBySentDesc
    split
    · exact (ih.cons x).trans (List.Perm.swap r x xs)
    · exact List.Perm.refl _

lemma sortBySentDesc_perm (l : List DeliveryRecord) : (sortBySentDesc l).Perm l := by
  induction l with
  | nil => exact List.Perm.refl _
  | cons r rest ih =>
    exact (insertBySentDesc_perm r (sortBySentDesc rest)).trans (ih.cons r)

/-- **C6 counterexample.** The claim "if the customer's two most recent
delivery attempts on channel C both failed or bounced, `should_fallback`
returns true" fails: a customer whose two WhatsApp attempts (the two most
recent on that channel) failed/bounced but who then received five more
recent SMS deliveries gets `should_fallback = false`, because the source
filters the channel inside the customer's 5 most recent deliveries overall,
and those are all SMS. -/
theorem shouldFallback_interposed_counterexample :
    (let s1 := recordSent TrackerState.empty "m1" "c1" "whatsapp" "dest" 1
     let s2 := updateStatus s1 "m1" DeliveryStatus.failed none none 1
     let s3 := recordSent s2 "m2" "c1" "whatsapp" "dest" 2
     let s4 := updateStatus s3 "m2" DeliveryStatus.bounced none none 2
     let s5 := recordSent s4 "m3" "c1" "sms" "dest" 3
     let s6 := recordSent s5 "m4" "c1" "sms" "dest" 4
     let s7 := recordSent s6 "m5" "c1" "sms" "dest" 5
     let s8 := recordSent s7 "m6" "c1" "sms" "dest" 6
     let s9 := recordSent s8 "m7" "c1" "sms" "dest" 7
     spec_twoMostRecentOnChannelFailed s9 "c1" "whatsapp" = true ∧
     shouldFallback s9 "c1" "whatsapp" = false) :=
  ⟨by decide, by decide⟩

/-- **C6 (amended).** If, among the customer's 5 most recent deliveries
overall, at least 2 are on channel C and the 2 most recent of those are
both failed or bounced, `should_fallback(customer, C)` returns true; and if
the customer has fewer than 2 recorded delivery attempts on channel C in
total, it returns false. -/
theorem shouldFallback_two_recent (st : TrackerState) (cid ch : String) :
    (∀ r1 r2 rest,
      (getCustomerHistory st cid 5).filter (fun r => r.channel = ch) = r1 :: r2 :: rest →
      (r1.status = DeliveryStatus.failed ∨ r1.status = DeliveryStatus.bounced) →
      (r2.status = DeliveryStatus.failed ∨ r2.status = DeliveryStatus.bounced) →
      shouldFallback st cid ch = true) ∧
    ((((st.customerHistory cid).filterMap st.deliveries).filter
        (fun r => r.channel = ch)).length < 2 →
      shouldFallback st cid ch = false) := by
  constructor
  · intro r1 r2 rest heq h1 h2
    unfold shouldFallback
    dsimp only
    rw [heq]
    simp [h1, h2]
  · intro hlt
    unfold shouldFallback
    dsimp only
    have hsub : ((getCustomerHistory st cid 5).filter (fun r => r.channel = ch)).length <
        2 := by
      have h1 : (getCustomerHistory st cid 5).Sublist
          (sortBySentDesc ((st.customerHistory cid).filterMap st.deliveries)) := by
        unfold getCustomerHistory
        exact List.take_sublist _ _
      have h2 := (h1.filter (fun r => decide (r.channel = ch))).length_le
      have h3 : ((sortBySentDesc ((st.customerHistory cid).filterMap st.deliveries)).filter
          (fun r => decide (r.channel = ch))).length =
          (((st.customerHistory cid).filterMap st.deliveries).filter
            (fun r => decide (r.channel = ch))).length :=
        ((sortBySentDesc_perm _).filter _).length_eq
      omega
    rw [if_pos hsub]

/-- **C6 (amended) witness**: two failed/bounced WhatsApp deliveries (and
nothing else) trigger the fallback for that customer, while a customer with
no recorded deliveries on the channel reports no fallback. -/
theorem shouldFallback_two_recent_witness :
    (let s4 := updateStatus
        (recordSent
          (updateStatus (recordSent TrackerState.empty "m1" "c1" "whatsapp" "dest" 1)
            "m1" DeliveryStatus.failed none none 1)
          "m2" "c1" "whatsapp" "dest" 2)
        "m2" DeliveryStatus.bounced none none 2
     ((getCustomerHistory s4 "c1" 5).filter (fun r => r.channel = "whatsapp") =
        [DeliveryRecord.mk "m2" "c1" "whatsapp" "dest" DeliveryStatus.bounced 2 none none none 1,
         DeliveryRecord.mk "m1" "c1" "whatsapp" "dest" DeliveryStatus.failed 1 none none none 1] ∧
       (((s4.customerHistory "c2").filterMap s4.deliveries).filter
          (fun r => r.channel = "whatsapp")).length < 2) ∧
     shouldFallback s4 "c1" "whatsapp" = true ∧
     shouldFallback s4 "c2" "whatsapp" = false) :=
  ⟨⟨by decide, by decide⟩,
   (shouldFallback_two_recent _ "c1" "whatsapp").1
     (DeliveryRecord.mk "m2" "c1" "whatsapp" "dest" DeliveryStatus.bounced 2 none none none 1)
     (DeliveryRecord.mk "m1" "c1" "whatsapp" "dest" DeliveryStatus.failed 1 none none none 1)
     [] (by decide) (by decide) (by decide),
   (shouldFallback_two_recent _ "c2" "whatsapp").2 (by decide)⟩

/-! ## Channel prediction — `src/ai_cpaas_demo/engines/prediction/base.py`

`predict_channel` scores the four channels from the customer profile (the
base engine's `_get_customer_profile` returns a mock profile with empty
preference and engagement lists), applies urgency/length adjustments,
selects the highest score (Python `max` keeps the first maximal key in
iteration order sms, whatsapp, email, voice), and reports cost, engagement
probability and reasoning text.  `datetime.utcnow()` enters as a `now`
parameter (timestamps in days).  CPython's fixed-point float formatting is
modelled as exact-rational rounding half-to-even. -/

inductive UrgencyLevel where
  | low | medium | high
deriving Repr, DecidableEq

def ChannelType.value : ChannelType → String
  | ChannelType.sms => "sms"
  | ChannelType.whatsapp => "whatsapp"
  | ChannelType.email => "email"
  | ChannelType.voice => "voice"

structure EngagementRecord where
  channel : ChannelType
  messageType : MessageType
  timestamp : ℚ
  opened : Bool
  clicked : Bool
  responded : Bool
  engagementScore : ℚ
deriving Repr, DecidableEq

structure ChannelPreference where
  channel : ChannelType
  preferenceScore : ℚ
  lastEngagement : Option ℚ
  engagementCount : ℕ
deriving Repr, DecidableEq

/-- The fields of `CustomerProfile` the prediction engine reads. -/
structure CustomerProfile where
  externalId : String
  channelPreferences : List ChannelPreference
  engagementHistory : List EngagementRecord
deriving Repr, DecidableEq

/-- `_get_customer_profile`: the base engine's mock profile. -/
def mockCustomerProfile (cid : ℕ) : CustomerProfile :=
  { externalId := "customer-" ++ toString cid,
    channelPreferences := [], engagementHistory := [] }

structure PredictionRequest where
  customerId : ℕ
  messageType : MessageType
  urgency : UrgencyLevel
  contentLength : ℕ
deriving Repr, DecidableEq

structure PredictionResult where
  channel : ChannelType
  confidence : ℚ
  costEstimate : ℚ
  engagementProbability : ℚ
  reasoning : List String
deriving Repr, DecidableEq

/-- `self.channel_weights`. -/
def channelWeights : ChannelType → ℚ
  | ChannelType.sms => 1
  | ChannelType.whatsapp => 12 / 10
  | ChannelType.email => 8 / 10
  | ChannelType.voice => 6 / 10

/-- `self.urgency_multipliers`. -/
def urgencyMultipliers : UrgencyLevel → ℚ
  | UrgencyLevel.low => 1
  | UrgencyLevel.medium => 13 / 10
  | UrgencyLevel.high => 18 / 10

/-- `self.message_type_preferences`. -/
def messageTypePreferences : MessageType → ChannelType → ℚ
  | MessageType.promotional, ChannelType.email => 12 / 10
  | MessageType.promotional, ChannelType.whatsapp => 11 / 10
  | MessageType.promotional, ChannelType.sms => 9 / 10
  | MessageType.promotional, ChannelType.voice => 3 / 10
  | MessageType.transactional, ChannelType.sms => 13 / 10
  | MessageType.transactional, ChannelType.email => 12 / 10
  | MessageType.transactional, ChannelType.whatsapp => 1
  | MessageType.transactional, ChannelType.voice => 4 / 10
  | MessageType.support, ChannelType.voice => 15 / 10
  | MessageType.support, ChannelType.whatsapp => 12 / 10
  | MessageType.support, ChannelType.email => 1
  | MessageType.support, ChannelType.sms => 8 / 10

/-- `ChannelType` iteration order of the Python enum. -/
def channelOrder : List ChannelType :=
  [ChannelType.sms, ChannelType.whatsapp, ChannelType.email, ChannelType.voice]

/-- `np.mean` over a (nonempty at call sites) list. -/
def ratMean (l : List ℚ) : ℚ := l.sum / (l.length : ℚ)

/-- Hour-of-day of a timestamp measured in days. -/
def hourOfDay (t : ℚ) : ℤ := Int.floor ((t - (Int.floor t : ℚ)) * 24)

structure ChannelEngagement where
  totalMessages : ℕ
  engagementRate : ℚ
  clickRate : ℚ
  responseRate : ℚ
  avgEngagementScore : ℚ
  lastEngagement : Option ℚ
deriving Repr, DecidableEq

/-- Stable ascending insertion by timestamp (Python
`sorted(history, key=lambda x: x.timestamp)`). -/
def insertRecAsc (r : EngagementRecord) : List EngagementRecord → List EngagementRecord
  | [] => [r]
  | x :: xs => if x.timestamp < r.timestamp then x :: insertRecAsc r xs else r :: x :: xs

def sortRecAsc : List EngagementRecord → List EngagementRecord
  | [] => []
  | r :: rest => insertRecAsc r (sortRecAsc rest)

/-- `_calculate_engagement_trend`. -/
def calculateEngagementTrend (history : List EngagementRecord) : String :=
  if history.length < 5 then "insufficient_data"
  else
    let sorted := sortRecAsc history
    let recent := sorted.drop (sorted.length - 10)
    if recent.length < 5 then "insufficient_recent_data"
    else
      let firstHalf := recent.take (recent.length / 2)
      let secondHalf := recent.drop (recent.length / 2)
      let firstAvg := ratMean (firstHalf.map (·.engagementScore))
      let secondAvg := ratMean (secondHalf.map (·.engagementScore))
      if firstAvg + 1 / 10 < secondAvg then "improving"
      else if secondAvg < firstAvg - 1 / 10 then "declining"
      else "stable"

structure EngagementAnalysis where
  channelEngagement : ChannelType → ChannelEngagement
  preferredHours : List ℤ
  totalRecentMessages : ℕ
  overallEngagementTrend : String

/-- `analyze_engagement_patterns` for a given profile at wall clock `now`:
per-channel rates, recent preferred hours, overall trend. -/
def analyzeEngagementPatterns (profile : CustomerProfile) (now : ℚ) :
    EngagementAnalysis :=
  let channelEngagement : ChannelType → ChannelEngagement := fun channel =>
    let channelRecords := profile.engagementHistory.filter (fun r => r.channel = channel)
    match channelRecords with
    | [] =>
      { totalMessages := 0, engagementRate := 0, clickRate := 0, responseRate := 0,
        avgEngagementScore := 0, lastEngagement := none }
    | _ :: _ =>
      let total := channelRecords.length
      let opened := (channelRecords.filter (fun r => r.opened = true)).length
      let clicked := (channelRecords.filter (fun r => r.clicked = true)).length
      let responded := (channelRecords.filter (fun r => r.responded = true)).length
      { totalMessages := total,
        engagementRate := (opened : ℚ) / (total : ℚ),
        clickRate := (clicked : ℚ) / (total : ℚ),
        responseRate := (responded : ℚ) / (total : ℚ),
        avgEngagementScore := ratMean (channelRecords.map (·.engagementScore)),
        lastEngagement := (channelRecords.map (·.timestamp)).max? }
  let recentRecords := profile.engagementHistory.filter (fun r => now - 30 ≤ r.timestamp)
  let hours := (recentRecords.map (fun r => hourOfDay r.timestamp)).dedup
  let preferredHours := hours.filter (fun h =>
    6 / 10 < ratMean ((recentRecords.filter (fun r => hourOfDay r.timestamp = h)).map
      (·.engagementScore)))
  { channelEngagement := channelEngagement,
    preferredHours := preferredHours,
    totalRecentMessages := recentRecords.length,
    overallEngagementTrend := calculateEngagementTrend profile.engagementHistory }

/-- `calculate_channel_scores(customer_id, message_type)` at wall clock
`now` (it re-fetches the mock profile and engagement analysis itself). -/
def calculateChannelScores (cid : ℕ) (messageType : MessageType) (now : ℚ) :
    ChannelType → ℚ :=
  let profile := mockCustomerProfile cid
  let analysis := analyzeEngagementPatterns profile now
  fun channel =>
    let baseScore := channelWeights channel
    let messageTypeScore := messageTypePreferences messageType channel
    let ce := analysis.channelEngagement channel
    let engagementScore :=
      ce.engagementRate * (4 / 10) + ce.clickRate * (3 / 10) + ce.responseRate * (3 / 10)
    let preferenceScore :=
      match profile.channelPreferences.find? (fun p => p.channel = channel) with
      | some p => p.preferenceScore
      | none => 5 / 10
    let recencyScore : ℚ :=
      match ce.lastEngagement with
      | none => 1
      | some le => max (5 / 10) (1 - ((Int.floor (now - le) : ℚ) / 90))
    baseScore * (2 / 10) + messageTypeScore * (3 / 10) + engagementScore * (25 / 100) +
      preferenceScore * (15 / 100) + recencyScore * (1 / 10)

/-- `_apply_adjustments`. -/
def applyAdjustments (scores : ChannelType → ℚ) (urgency : UrgencyLevel)
    (contentLength : ℕ) : ChannelType → ℚ := fun channel =>
  let s := scores channel * urgencyMultipliers urgency
  if channel = ChannelType.sms ∧ 160 < contentLength then s * (7 / 10)
  else if channel = ChannelType.email ∧ contentLength < 50 then s * (8 / 10)
  else if channel = ChannelType.whatsapp ∧ 500 < contentLength then s * (9 / 10)
  else s

/-- Python `max(scores.keys(), key=scores.get)`: the first key (in enum
iteration order) attaining the maximal score. -/
def argmaxChannel (scores : ChannelType → ℚ) : ChannelType :=
  [ChannelType.whatsapp, ChannelType.email, ChannelType.voice].foldl
    (fun best c => if scores best < scores c then c else best) ChannelType.sms

/-- Round half to even (what CPython's fixed-point float formatting does, up
to binary-representation error of the float being formatted). -/
def roundHalfEven (x : ℚ) : ℤ :=
  let f := Int.floor x
  let frac := x - (f : ℚ)
  if frac < 1 / 2 then f
  else if 1 / 2 < frac then f + 1
  else if f % 2 = 0 then f else f + 1

/-- Python `f"{q:.<digits>f}"` over exact rationals. -/
def fmtFixed (digits : ℕ) (q : ℚ) : String :=
  let scale : ℚ := ((10 ^ digits : ℕ) : ℚ)
  let n := roundHalfEven (q * scale)
  let sign := if n < 0 then "-" else ""
  let m := n.natAbs
  let ip := m / 10 ^ digits
  let fp := m % 10 ^ digits
  let fpStr := toString fp
  let pad := String.mk (List.replicate (digits - fpStr.length) '0')
  sign ++ toString ip ++ "." ++ pad ++ fpStr

/-- Python `f"{q:.1%}"`. -/
def fmtPercent1 (q : ℚ) : String := fmtFixed 1 (q * 100) ++ "%"

/-- Stable descending insertion by score (Python
`sorted(scores.items(), key=lambda x: x[1], reverse=True)`). -/
def insertPairDesc (p : ChannelType × ℚ) :
    List (ChannelType × ℚ) → List (ChannelType × ℚ)
  | [] => [p]
  | x :: xs => if p.2 < x.2 then x :: insertPairDesc p xs else p :: x :: xs

def sortPairsDesc : List (ChannelType × ℚ) → List (ChannelType × ℚ)
  | [] => []
  | p :: rest => insertPairDesc p (sortPairsDesc rest)

/-- `_generate_reasoning`. -/
def generateReasoning (profile : CustomerProfile) (analysis : EngagementAnalysis)
    (channelScores : ChannelType → ℚ) (selectedChannel : ChannelType) : List String :=
  let r1 := ["Selected " ++ selectedChannel.value ++ " with confidence score " ++
    fmtFixed 2 (channelScores selectedChannel)]
  let ce := analysis.channelEngagement selectedChannel
  let r2 := r1 ++
    (if 0 < ce.totalMessages then
      ["Customer has " ++ fmtPercent1 ce.engagementRate ++ " engagement rate on " ++
        selectedChannel.value]
    else
      ["No historical data for " ++ selectedChannel.value ++ ", using predictive modeling"])
  let r3 := r2 ++
    (match profile.channelPreferences.find? (fun p => p.channel = selectedChannel) with
     | some p => ["Customer preference score for " ++ selectedChannel.value ++ ": " ++
         fmtFixed 2 p.preferenceScore]
     | none => [])
  let sortedChannels := sortPairsDesc (channelOrder.map (fun c => (c, channelScores c)))
  match sortedChannels with
  | _ :: secondBest :: _ =>
    r3 ++ ["Outperformed " ++ secondBest.1.value ++ " by " ++
      fmtFixed 2 (channelScores selectedChannel - secondBest.2) ++ " points"]
  | _ => r3

/-- `_calculate_cost_estimate`. -/
def calculateCostEstimate (channel : ChannelType) (contentLength : ℕ) : ℚ :=
  let baseCost : ℚ :=
    match channel with
    | ChannelType.sms => 75 / 10000
    | ChannelType.whatsapp => 5 / 1000
    | ChannelType.email => 1 / 10000
    | ChannelType.voice => 13 / 1000
  if channel = ChannelType.sms ∧ 160 < contentLength then
    baseCost * (((contentLength + 159) / 160 : ℕ) : ℚ)
  else baseCost

/-- `_calculate_engagement_probability`. -/
def calculateEngagementProbability (profile : CustomerProfile) (channel : ChannelType)
    (messageType : MessageType) : ℚ :=
  let baseProb : ℚ :=
    match channel with
    | ChannelType.sms => 85 / 100
    | ChannelType.whatsapp => 75 / 100
    | ChannelType.email => 25 / 100
    | ChannelType.voice => 15 / 100
  let channelRecords := profile.engagementHistory.filter (fun r => r.channel = channel)
  let adjustedProb : ℚ :=
    match channelRecords with
    | [] => baseProb * (8 / 10)
    | _ :: _ =>
      baseProb * (3 / 10) +
        ratMean (channelRecords.map (fun r => r.engagementScore)) * (7 / 10)
  let typeMultiplier : ℚ :=
    match messageType with
    | MessageType.transactional => 12 / 10
    | MessageType.promotional => 8 / 10
    | MessageType.support => 11 / 10
  min (adjustedProb * typeMultiplier) 1

/-- `predict_channel(request)` at wall clock `now`. -/
def predictChannel (request : PredictionRequest) (now : ℚ) : PredictionResult :=
  let customerProfile := mockCustomerProfile request.customerId
  let engagementAnalysis := analyzeEngagementPatterns customerProfile now
  let channelScores := calculateChannelScores request.customerId request.messageType now
  let adjustedScores := applyAdjustments channelScores request.urgency request.contentLength
  let bestChannel := argmaxChannel adjustedScores
  let confidence := adjustedScores bestChannel
  let reasoning := generateReasoning customerProfile engagementAnalysis adjustedScores
    bestChannel
  let costEstimate := calculateCostEstimate bestChannel request.contentLength
  let engagementProbability := calculateEngagementProbability customerProfile bestChannel
    request.messageType
  { channel := bestChannel, confidence := min confidence 1, costEstimate := costEstimate,
    engagementProbability := engagementProbability, reasoning := reasoning }

/-- **C8.** Two structurally identical prediction requests yield identical
results from the base engine — same channel, confidence, cost estimate,
engagement probability and reasoning list — even across different call
times: with the mock profile's empty histories, every time-dependent branch
(recency decay, recent-record window) collapses, so the result is a pure
function of the request. -/
theorem predictChannel_deterministic (req1 req2 : PredictionRequest) (t1 t2 : ℚ)
    (h : req1 = req2) : predictChannel req1 t1 = predictChannel req2 t2 := by
  subst h
  rfl

/-- **C8 witness**: the same promotional/high-urgency request issued at two
different wall-clock times. -/
theorem predictChannel_deterministic_witness :
    (PredictionRequest.mk 5 MessageType.promotional UrgencyLevel.high 120 =
      PredictionRequest.mk 5 MessageType.promotional UrgencyLevel.high 120) ∧
    predictChannel (PredictionRequest.mk 5 MessageType.promotional UrgencyLevel.high 120) 0 =
      predictChannel (PredictionRequest.mk 5 MessageType.promotional UrgencyLevel.high 120)
        1000 :=
  ⟨rfl,
   predictChannel_deterministic
     (PredictionRequest.mk 5 MessageType.promotional UrgencyLevel.high 120)
     (PredictionRequest.mk 5 MessageType.promotional UrgencyLevel.high 120) 0 1000 rfl⟩

/-! ## Data seeder — `src/ai_cpaas_demo/data/data_seeder.py`

`seed_in_memory` stores the enriched customer dictionaries by id and builds
two indexes: location → customer ids and SKU → customer ids (one entry per
SKU in the `set` union of the profile's four SKU lists).  Python
dictionaries with `.get(key, [])` defaults become total functions with
default `[]`; the `customers` dict is an `Option`-valued function, and a
query's `none` result models the `KeyError` that `self.customers[cid]`
would raise (it cannot occur for seeded states, as the theorem shows).
Python's `set(...)` intersection is iterated in unspecified order; the
embedding fixes location-index order, which no counted quantity depends
on. -/

structure SeedProfile where
  customerId : String
  location : String
  productInterests : List String
  purchaseHistory : List String
  browsingHistory : List String
  cartItems : List String
deriving Repr, DecidableEq

/-- `set(interests + purchases + browsing + cart)`: membership set of the
four lists, one occurrence per SKU. -/
def SeedProfile.allSkus (p : SeedProfile) : List String :=
  (p.productInterests ++ p.purchaseHistory ++ p.browsingHistory ++ p.cartItems).dedup

structure SeederState where
  customers : String → Option SeedProfile
  customersByLocation : String → List String
  customersBySku : String → List String

/-- Append the profile's id under each of its SKUs. -/
def addSkus (accS : String → List String) (p : SeedProfile) : String → List String :=
  p.allSkus.foldl
    (fun sk sku => fun k => if k = sku then sk k ++ [p.customerId] else sk k) accS

/-- The index-building loop of `seed_in_memory`, with explicit
accumulators. -/
def buildIndexesFrom (accL accS : String → List String) :
    List SeedProfile → (String → List String) × (String → List String)
  | [] => (accL, accS)
  | p :: rest =>
    buildIndexesFrom
      (fun loc => if loc = p.location then accL loc ++ [p.customerId] else accL loc)
      (addSkus accS p) rest

/-- The `self.customers = {p["customer_id"]: p}` comprehension (later
entries overwrite earlier ones). -/
def customersDict (profiles : List SeedProfile) : String → Option SeedProfile :=
  profiles.foldl
    (fun m p => fun cid => if cid = p.customerId then some p else m cid) (fun _ => none)

/-- `seed_in_memory(profiles)`. -/
def seedInMemory (profiles : List SeedProfile) : SeederState :=
  { customers := customersDict profiles,
    customersByLocation := (buildIndexesFrom (fun _ => []) (fun _ => []) profiles).1,
    customersBySku := (buildIndexesFrom (fun _ => []) (fun _ => []) profiles).2 }

/-- `[self.customers[cid] for cid in ids]`: `none` models the `KeyError`
raised on a missing id. -/
def lookupAll (f : String → Option SeedProfile) : List String → Option (List SeedProfile)
  | [] => some []
  | cid :: rest =>
    match f cid, lookupAll f rest with
    | some p, some ps => some (p :: ps)
    | _, _ => none

/-- `query_by_location`. -/
def queryByLocation (st : SeederState) (location : String) : Option (List SeedProfile) :=
  lookupAll st.customers (st.customersByLocation location)

/-- `query_by_sku`. -/
def queryBySku (st : SeederState) (sku : String) : Option (List SeedProfile) :=
  lookupAll st.customers (st.customersBySku sku)

/-- `query_by_location_and_sku`: the set intersection of the two id lists
(iterated here in location-index order), then the customer lookups. -/
def queryByLocationAndSku (st : SeederState) (location sku : String) :
    Option (List SeedProfile) :=
  let locationIds := st.customersByLocation location
  let skuIds := st.customersBySku sku
  let matchingIds := locationIds.dedup.filter (fun cid => cid ∈ skuIds)
  lookupAll st.customers matchingIds


lemma buildIndexes_loc (ps : List SeedProfile) :
    ∀ (accL accS : String → List String) (L : String),
      (buildIndexesFrom accL accS ps).1 L =
        accL L ++ (ps.filter (fun p => p.location = L)).map (fun p => p.customerId) := by
  induction ps with
  | nil => intro accL accS L; simp [buildIndexesFrom]
  | cons p rest ih =>
    intro accL accS L
    unfold buildIndexesFrom
    rw [ih]
    by_cases h : p.location = L
    · simp [h]
    · have h2 : ¬ L = p.location := fun hh => h hh.symm
      simp [h, h2]

lemma addSkus_eval (p : SeedProfile) (accS : String → List String) (S : String) :
    addSkus accS p S = accS S ++ (if S ∈ p.allSkus then [p.customerId] else []) := by
  unfold addSkus
  have hnd : p.allSkus.Nodup := List.nodup_dedup _
  -- generalize over the sku list
  suffices h : ∀ (skus : List String), skus.Nodup → ∀ accS : String → List String,
      (skus.foldl (fun sk sku => fun k => if k = sku then sk k ++ [p.customerId] else sk k)
        accS) S = accS S ++ (if S ∈ skus then [p.customerId] else []) by
    exact h p.allSkus hnd accS
  intro skus
  induction skus with
  | nil => intro _ accS; simp
  | cons sku rest ih =>
    intro hnd accS
    simp only [List.foldl_cons]
    rw [ih hnd.of_cons]
    by_cases h : S = sku
    · subst h
      have : S ∉ rest := (List.nodup_cons.mp hnd).1
      simp [this]
    · simp [h, fun hh : sku = S => h hh.symm]


lemma buildIndexes_sku (ps : List SeedProfile) :
    ∀ (accL accS : String → List String) (S : String),
      (buildIndexesFrom accL accS ps).2 S =
        accS S ++ (ps.filter (fun p => S ∈ p.allSkus)).map (fun p => p.customerId) := by
  induction ps with
  | nil => intro accL accS S; simp [buildIndexesFrom]
  | cons p rest ih =>
    intro accL accS S
    unfold buildIndexesFrom
    rw [ih]
    rw [addSkus_eval]
    by_cases h : S ∈ p.allSkus
    · simp [h]
    · simp [h]

lemma customersDict_not_mem (ps : List SeedProfile) :
    ∀ (m : String → Option SeedProfile) (cid : String),
      cid ∉ ps.map (fun p => p.customerId) →
      ps.foldl (fun m p => fun c => if c = p.customerId then some p else m c) m cid = m cid := by
  induction ps with
  | nil => intro m cid _; rfl
  | cons p rest ih =>
    intro m cid hmem
    simp only [List.map_cons, List.mem_cons, not_or] at hmem
    simp only [List.foldl_cons]
    rw [ih _ cid hmem.2]
    simp [hmem.1]

lemma customersFold_lookup {ps : List SeedProfile}
    (hnd : (ps.map (fun p => p.customerId)).Nodup) {p : SeedProfile} (hp : p ∈ ps) :
    ∀ m : String → Option SeedProfile,
      ps.foldl (fun m p => fun c => if c = p.customerId then some p else m c) m
        p.customerId = some p := by
  induction ps with
  | nil => cases hp
  | cons q rest ih =>
    intro m
    simp only [List.map_cons, List.nodup_cons] at hnd
    simp only [List.foldl_cons]
    rcases List.mem_cons.mp hp with hpq | hprest
    · subst hpq
      rw [customersDict_not_mem rest _ _ hnd.1]
      simp
    · exact ih hnd.2 hprest _

lemma customersDict_lookup {ps : List SeedProfile}
    (hnd : (ps.map (fun p => p.customerId)).Nodup) {p : SeedProfile} (hp : p ∈ ps) :
    customersDict ps p.customerId = some p :=
  customersFold_lookup hnd hp _

lemma lookupAll_filter {ps : List SeedProfile}
    (hnd : (ps.map (fun p => p.customerId)).Nodup) :
    ∀ (Q : List SeedProfile), (∀ q ∈ Q, q ∈ ps) →
      lookupAll (customersDict ps) (Q.map (fun p => p.customerId)) = some Q := by
  intro Q
  induction Q with
  | nil => intro _; rfl
  | cons q rest ih =>
    intro hmem
    simp only [List.map_cons]
    unfold lookupAll
    rw [customersDict_lookup hnd (hmem q (List.mem_cons_self q rest)),
      ih (fun x hx => hmem x (List.mem_cons_of_mem q hx))]


/-- **C5.** For every location `L` and SKU `S` on a seeded state with
distinct customer ids: all three queries succeed (no `KeyError`), the size
of the intersection of the location-query and SKU-query result sets equals
the length of the combined query's result, that size is bounded by each
single query's size, and a location or SKU matching no profile yields zero
matches without raising. -/
theorem seeder_query_intersection (profiles : List SeedProfile)
    (hnd : (profiles.map (fun p => p.customerId)).Nodup) (L S : String) :
    ∃ ql qs qb,
      queryByLocation (seedInMemory profiles) L = some ql ∧
      queryBySku (seedInMemory profiles) S = some qs ∧
      queryByLocationAndSku (seedInMemory profiles) L S = some qb ∧
      (ql.toFinset ∩ qs.toFinset).card = qb.length ∧
      qb.length ≤ ql.length ∧ qb.length ≤ qs.length ∧
      ((∀ p ∈ profiles, p.location ≠ L) → ql = [] ∧ qb = []) ∧
      ((∀ p ∈ profiles, S ∉ p.allSkus) → qs = [] ∧ qb = []) := by
  classical
  set PL := profiles.filter (fun p => p.location = L) with hPL
  set PS := profiles.filter (fun p => S ∈ p.allSkus) with hPS
  set PLS := PL.filter (fun p => S ∈ p.allSkus) with hPLS
  have hLoc : (seedInMemory profiles).customersByLocation L =
      PL.map (fun p => p.customerId) := by
    show (buildIndexesFrom (fun _ => []) (fun _ => []) profiles).1 L = _
    rw [buildIndexes_loc]
    simp
  have hSku : (seedInMemory profiles).customersBySku S =
      PS.map (fun p => p.customerId) := by
    show (buildIndexesFrom (fun _ => []) (fun _ => []) profiles).2 S = _
    rw [buildIndexes_sku]
    simp
  have hsubPL : ∀ q ∈ PL, q ∈ profiles := fun q hq => (List.mem_filter.mp hq).1
  have hsubPS : ∀ q ∈ PS, q ∈ profiles := fun q hq => (List.mem_filter.mp hq).1
  have hsubPLS : ∀ q ∈ PLS, q ∈ profiles := fun q hq => hsubPL q (List.mem_filter.mp hq).1
  have hQL : queryByLocation (seedInMemory profiles) L = some PL := by
    unfold queryByLocation
    rw [hLoc]
    exact lookupAll_filter hnd PL hsubPL
  have hQS : queryBySku (seedInMemory profiles) S = some PS := by
    unfold queryBySku
    rw [hSku]
    exact lookupAll_filter hnd PS hsubPS
  have hndprof : profiles.Nodup := List.Nodup.of_map _ hnd
  have hndPLids : (PL.map (fun p => p.customerId)).Nodup :=
    hnd.sublist (List.Sublist.map _ (List.filter_sublist _))
  have hinj : ∀ x ∈ profiles, ∀ y ∈ profiles,
      x.customerId = y.customerId → x = y :=
    List.inj_on_of_nodup_map hnd
  have hmatch : (PL.map (fun p => p.customerId)).dedup.filter
      (fun cid => cid ∈ PS.map (fun p => p.customerId)) =
      PLS.map (fun p => p.customerId) := by
    rw [List.dedup_eq_self.mpr hndPLids]
    rw [List.filter_map]
    congr 1
    apply List.filter_congr
    intro p hp
    have hpprof : p ∈ profiles := hsubPL p hp
    simp only [Function.comp]
    rw [decide_eq_decide]
    constructor
    · intro hmem
      obtain ⟨q, hq, hqid⟩ := List.mem_map.mp hmem
      have : q = p := hinj q (hsubPS q hq) p hpprof hqid
      subst this
      exact of_decide_eq_true (List.mem_filter.mp hq).2
    · intro hS
      exact List.mem_map.mpr ⟨p, List.mem_filter.mpr ⟨hpprof, decide_eq_true hS⟩, rfl⟩
  have hQB : queryByLocationAndSku (seedInMemory profiles) L S = some PLS := by
    unfold queryByLocationAndSku
    dsimp only
    rw [hLoc, hSku, hmatch]
    exact lookupAll_filter hnd PLS hsubPLS
  have hndPLS : PLS.Nodup := (hndprof.filter _).filter _
  have hcard : (PL.toFinset ∩ PS.toFinset).card = PLS.length := by
    have hfin : PLS.toFinset = PL.toFinset ∩ PS.toFinset := by
      ext x
      simp only [List.mem_toFinset, Finset.mem_inter, hPLS, hPL, hPS, List.mem_filter]
      constructor
      · rintro ⟨⟨hx, hloc⟩, hsku⟩
        exact ⟨⟨hx, hloc⟩, hx, hsku⟩
      · rintro ⟨⟨hx, hloc⟩, _, hsku⟩
        exact ⟨⟨hx, hloc⟩, hsku⟩
    rw [← hfin, List.card_toFinset, List.dedup_eq_self.mpr hndPLS]
  have hlen1 : PLS.length ≤ PL.length := List.length_filter_le _ _
  have hlen2 : PLS.length ≤ PS.length := by
    have hsl : PL.Sublist profiles := List.filter_sublist _
    exact (hsl.filter _).length_le
  refine ⟨PL, PS, PLS, hQL, hQS, hQB, hcard, hlen1, hlen2, ?_, ?_⟩
  · intro hnone
    have hPLnil : PL = [] := by
      rw [hPL]
      apply List.filter_eq_nil_iff.mpr
      intro p hp
      simp only [decide_eq_true_eq]
      exact hnone p hp
    exact ⟨hPLnil, by rw [hPLS, hPLnil]; rfl⟩
  · intro hnone
    have hPSnil : PS = [] := by
      rw [hPS]
      apply List.filter_eq_nil_iff.mpr
      intro p hp
      simp only [decide_eq_true_eq]
      exact hnone p hp
    refine ⟨hPSnil, ?_⟩
    rw [hPLS]
    apply List.filter_eq_nil_iff.mpr
    intro p hp
    simp only [decide_eq_true_eq]
    exact hnone p (hsubPL p hp)

/-- **C5 witness**: three customers in two cities; Bangalore ∩ SKU-A has
exactly one customer. -/
theorem seeder_query_intersection_witness :
    ((([SeedProfile.mk "c1" "Bangalore" ["SKU-A"] [] [] [],
        SeedProfile.mk "c2" "Bangalore" [] ["SKU-B"] [] [],
        SeedProfile.mk "c3" "Delhi" ["SKU-A"] [] [] []]).map
          (fun p => p.customerId)).Nodup) ∧
    (∃ ql qs qb,
      queryByLocation (seedInMemory
        [SeedProfile.mk "c1" "Bangalore" ["SKU-A"] [] [] [],
         SeedProfile.mk "c2" "Bangalore" [] ["SKU-B"] [] [],
         SeedProfile.mk "c3" "Delhi" ["SKU-A"] [] [] []]) "Bangalore" = some ql ∧
      queryBySku (seedInMemory
        [SeedProfile.mk "c1" "Bangalore" ["SKU-A"] [] [] [],
         SeedProfile.mk "c2" "Bangalore" [] ["SKU-B"] [] [],
         SeedProfile.mk "c3" "Delhi" ["SKU-A"] [] [] []]) "SKU-A" = some qs ∧
      queryByLocationAndSku (seedInMemory
        [SeedProfile.mk "c1" "Bangalore" ["SKU-A"] [] [] [],
         SeedProfile.mk "c2" "Bangalore" [] ["SKU-B"] [] [],
         SeedProfile.mk "c3" "Delhi" ["SKU-A"] [] [] []]) "Bangalore" "SKU-A" = some qb ∧
      (ql.toFinset ∩ qs.toFinset).card = qb.length ∧
      qb.length ≤ ql.length ∧ qb.length ≤ qs.length ∧
      ((∀ p ∈ [SeedProfile.mk "c1" "Bangalore" ["SKU-A"] [] [] [],
          SeedProfile.mk "c2" "Bangalore" [] ["SKU-B"] [] [],
          SeedProfile.mk "c3" "Delhi" ["SKU-A"] [] [] []], p.location ≠ "Bangalore") →
        ql = [] ∧ qb = []) ∧
      ((∀ p ∈ [SeedProfile.mk "c1" "Bangalore" ["SKU-A"] [] [] [],
          SeedProfile.mk "c2" "Bangalore" [] ["SKU-B"] [] [],
          SeedProfile.mk "c3" "Delhi" ["SKU-A"] [] [] []], "SKU-A" ∉ p.allSkus) →
        qs = [] ∧ qb = [])) :=
  ⟨by decide,
   seeder_query_intersection
     [SeedProfile.mk "c1" "Bangalore" ["SKU-A"] [] [] [],
      SeedProfile.mk "c2" "Bangalore" [] ["SKU-B"] [] [],
      SeedProfile.mk "c3" "Delhi" ["SKU-A"] [] [] []]
     (by decide) "Bangalore" "SKU-A"⟩

end AICPaaS

